import Mathlib

/-!
FlowForge — verification of the supervision / decision / evidence subsystem.

A shallow embedding of the FlowForge control plane (`internal/api/server.go`,
`internal/state/state.go`) together with proofs and refutations of the
specified properties of the replay digest, the signal-baseline drift monitor,
the auth / rate-limit pipeline, the process-state snapshots and the audit
actor attribution.

Embedding conventions:
* Go `string` is Lean `String`; the Go library functions used by the code
  (`strings.TrimSpace`, `strings.ToUpper`, `strings.ToLower`,
  `strings.HasPrefix`, `strings.TrimPrefix`, `strings.Contains`,
  `strings.Join`) are reimplemented below on `List Char`.  Case mapping is
  restricted to ASCII letters (the Go code only ever compares the ASCII
  keywords `KILL`, `enforce`, `at_risk`, HTTP method names, …);
  `unicode.IsSpace` is embedded with Go's full white-space set.
* Go `float64` scores are embedded as `ℚ` with all roundings explicit;
  `math.Round` (documented in Go as rounding half away from zero) becomes
  `goRound`.
* Go `int` / `int64` become `ℤ`; byte values inside SHA-256 are `ℕ` reduced
  by `% 2 ^ 32` where the code relies on 32-bit wraparound.
* Fallible or stateful code is explicit state passing; the SQLite-backed
  baseline state store becomes an explicit `Option` previous-row argument
  and an explicit persisted-row result.
-/

namespace FlowForge

/-! ## Go string primitives -/

/-- Go `unicode.IsSpace` (the Unicode White_Space property), per rune. -/
def isGoSpace (c : Char) : Bool :=
  let n := c.toNat
  (9 ≤ n && n ≤ 13) || n == 32 || n == 0x85 || n == 0xA0 || n == 0x1680 ||
    (0x2000 ≤ n && n ≤ 0x200A) || n == 0x2028 || n == 0x2029 ||
    n == 0x202F || n == 0x205F || n == 0x3000

/-- Drop white space from the front of a rune list. -/
def goTrimLeftChars (l : List Char) : List Char :=
  l.dropWhile isGoSpace

/-- Drop white space from the back of a rune list. -/
def goTrimRightChars (l : List Char) : List Char :=
  (l.reverse.dropWhile isGoSpace).reverse

/-- Go `strings.TrimSpace` on rune lists. -/
def goTrimChars (l : List Char) : List Char :=
  goTrimRightChars (goTrimLeftChars l)

/-- Go `strings.TrimSpace`. -/
def goTrimSpace (s : String) : String :=
  ⟨goTrimChars s.data⟩

/-- ASCII upper-casing of one character (identity beyond `a`–`z`). -/
def charAsciiUpper (c : Char) : Char :=
  if 97 ≤ c.toNat ∧ c.toNat ≤ 122 then Char.ofNat (c.toNat - 32) else c

/-- ASCII lower-casing of one character (identity beyond `A`–`Z`). -/
def charAsciiLower (c : Char) : Char :=
  if 65 ≤ c.toNat ∧ c.toNat ≤ 90 then Char.ofNat (c.toNat + 32) else c

/-- Go `strings.ToUpper`, restricted to ASCII case mapping. -/
def goToUpper (s : String) : String :=
  ⟨s.data.map charAsciiUpper⟩

/-- Go `strings.ToLower`, restricted to ASCII case mapping. -/
def goToLower (s : String) : String :=
  ⟨s.data.map charAsciiLower⟩

/-- Go `strings.HasPrefix s pat`. -/
def goStartsWith (s pat : String) : Bool :=
  pat.data.isPrefixOf s.data

/-- Go `strings.TrimPrefix s pat`: drop `pat` from the front when present. -/
def goDropStart (s pat : String) : String :=
  if goStartsWith s pat then ⟨s.data.drop pat.data.length⟩ else s

/-- Go `strings.Contains s pat`. -/
def goContainsStr (s pat : String) : Bool :=
  decide (pat.data <:+: s.data)

/-! ## Replay score arithmetic (`float64` model over `ℚ`) -/

/-- Go `math.Round`: the nearest integer, rounding half away from zero. -/
def goRound (x : ℚ) : ℤ :=
  if 0 ≤ x then ⌊x + 1 / 2⌋ else -⌊-x + 1 / 2⌋

/-- `normalizeReplayScore` (server.go): round to 6 decimal places with
`math.Round(v*1_000_000)/1_000_000` and collapse a zero result (Go: `-0`)
to literal `0`. -/
def normalizeReplayScore (v : ℚ) : ℚ :=
  let rounded : ℚ := (goRound (v * 1000000) : ℚ) / 1000000
  if rounded = 0 then 0 else rounded

/-- Decimal digit character of `n % 10`. -/
def decDigit (n : ℕ) : Char :=
  Char.ofNat (48 + n % 10)

/-- The six decimal digits of `n < 10⁶`, zero padded (the fraction part Go's
`FormatFloat(v, 'f', 6, 64)` prints). -/
def zeroPad6 (n : ℕ) : String :=
  ⟨[decDigit (n / 100000), decDigit (n / 10000), decDigit (n / 1000),
    decDigit (n / 100), decDigit (n / 10), decDigit n]⟩

/-- Fixed-point rendering with exactly six fractional digits, for values that
are integer multiples of `10⁻⁶` (all outputs of `normalizeReplayScore`).
Embeds Go `strconv.FormatFloat(v, 'f', 6, 64)` on that domain. -/
def fmtFixed6 (r : ℚ) : String :=
  let m : ℤ := goRound (r * 1000000)
  (if m < 0 then "-" else "") ++ Nat.repr (m.natAbs / 1000000) ++ "." ++
    zeroPad6 (m.natAbs % 1000000)

/-- `formatReplayScore` (server.go): format the normalized score with six
decimal places. -/
def formatReplayScore (v : ℚ) : String :=
  fmtFixed6 (normalizeReplayScore v)

/-! ## SHA-256 (`crypto/sha256`) over byte lists, 32-bit words as `ℕ % 2³²` -/

/-- Right-rotation of a 32-bit word held as a `ℕ` below `2 ^ 32`. -/
def rotr32 (n x : ℕ) : ℕ :=
  x / 2 ^ n + x % 2 ^ n * 2 ^ (32 - n)

/-- Logical right shift of a 32-bit word. -/
def shr32 (n x : ℕ) : ℕ :=
  x / 2 ^ n

/-- Bitwise complement within 32 bits. -/
def not32 (x : ℕ) : ℕ :=
  Nat.xor x 4294967295

/-- The 64 SHA-256 round constants. -/
def sha256K : List ℕ :=
  [1116352408, 1899447441, 3049323471, 3921009573, 961987163, 1508970993,
   2453635748, 2870763221, 3624381080, 310598401, 607225278, 1426881987,
   1925078388, 2162078206, 2614888103, 3248222580, 3835390401, 4022224774,
   264347078, 604807628, 770255983, 1249150122, 1555081692, 1996064986,
   2554220882, 2821834349, 2952996808, 3210313671, 3336571891, 3584528711,
   113926993, 338241895, 666307205, 773529912, 1294757372, 1396182291,
   1695183700, 1986661051, 2177026350, 2456956037, 2730485921, 2820302411,
   3259730800, 3345764771, 3516065817, 3600352804, 4094571909, 275423344,
   430227734, 506948616, 659060556, 883997877, 958139571, 1322822218,
   1537002063, 1747873779, 1955562222, 2024104815, 2227730452, 2361852424,
   2428436474, 2756734187, 3204031479, 3329325298]

/-- The SHA-256 initial hash value. -/
def sha256H0 : List ℕ :=
  [1779033703, 3144134277, 1013904242, 2773480762,
   1359893119, 2600822924, 528734635, 1541459225]

/-- Big-endian byte rendering of `x` on `n` bytes. -/
def beBytes (n x : ℕ) : List ℕ :=
  (List.range n).map fun i => x / 2 ^ (8 * (n - 1 - i)) % 256

/-- SHA-256 message padding: `0x80`, zeros to 56 mod 64, 8-byte bit length. -/
def sha256Pad (msg : List ℕ) : List ℕ :=
  let padZeros := (119 - msg.length % 64) % 64
  msg ++ [0x80] ++ List.replicate padZeros 0 ++ beBytes 8 (8 * msg.length)

/-- Split a byte list into 64-byte blocks. -/
def chunk64 : List ℕ → List (List ℕ)
  | [] => []
  | a :: l => (a :: l).take 64 :: chunk64 ((a :: l).drop 64)
termination_by l => l.length
decreasing_by simp [List.drop]; omega

/-- The first sixteen 32-bit words of a 64-byte block, big-endian. -/
def sha256Words (block : List ℕ) : List ℕ :=
  (List.range 16).map fun i =>
    ((block.getD (4 * i) 0 * 256 + block.getD (4 * i + 1) 0) * 256 +
        block.getD (4 * i + 2) 0) * 256 + block.getD (4 * i + 3) 0

/-- One step of the SHA-256 message-schedule extension. -/
def sha256Extend (a : Array ℕ) : Array ℕ :=
  let n := a.size
  let w15 := a.getD (n - 15) 0
  let w2 := a.getD (n - 2) 0
  let s0 := Nat.xor (Nat.xor (rotr32 7 w15) (rotr32 18 w15)) (shr32 3 w15)
  let s1 := Nat.xor (Nat.xor (rotr32 17 w2) (rotr32 19 w2)) (shr32 10 w2)
  a.push ((a.getD (n - 16) 0 + s0 + a.getD (n - 7) 0 + s1) % 2 ^ 32)

/-- The full 64-word message schedule of one block. -/
def sha256Schedule (block : List ℕ) : Array ℕ :=
  (List.range 48).foldl (fun a _ => sha256Extend a) (sha256Words block).toArray

/-- SHA-256 compression of one 64-byte block into the running state. -/
def sha256Compress (h : List ℕ) (block : List ℕ) : List ℕ :=
  let w := sha256Schedule block
  let final := (List.range 64).foldl
    (fun st t =>
      match st with
      | [a, b, c, d, e, f, g, hh] =>
        let s1 := Nat.xor (Nat.xor (rotr32 6 e) (rotr32 11 e)) (rotr32 25 e)
        let ch := Nat.xor (Nat.land e f) (Nat.land (not32 e) g)
        let temp1 := (hh + s1 + ch + sha256K.getD t 0 + w.getD t 0) % 2 ^ 32
        let s0 := Nat.xor (Nat.xor (rotr32 2 a) (rotr32 13 a)) (rotr32 22 a)
        let maj := Nat.xor (Nat.xor (Nat.land a b) (Nat.land a c)) (Nat.land b c)
        let temp2 := (s0 + maj) % 2 ^ 32
        [(temp1 + temp2) % 2 ^ 32, a, b, c, (d + temp1) % 2 ^ 32, e, f, g]
      | other => other)
    h
  (h.zip final).map fun p => (p.1 + p.2) % 2 ^ 32

/-- SHA-256 digest (32 bytes) of a byte list. -/
def sha256Bytes (msg : List ℕ) : List ℕ :=
  ((chunk64 (sha256Pad msg)).foldl sha256Compress sha256H0).flatMap (beBytes 4)

/-- Hexadecimal digit characters. -/
def hexDigit (n : ℕ) : Char :=
  "0123456789abcdef".data.getD n '0'

/-- Lower-case hex encoding of a byte list (`encoding/hex`). -/
def bytesToHex (l : List ℕ) : String :=
  ⟨l.flatMap fun b => [hexDigit (b / 16), hexDigit (b % 16)]⟩

/-- UTF-8 encoding of one character as bytes. -/
def utf8EncodeCharNat (c : Char) : List ℕ :=
  let n := c.toNat
  if n < 0x80 then [n]
  else if n < 0x800 then [0xC0 + n / 64, 0x80 + n % 64]
  else if n < 0x10000 then
    [0xE0 + n / 4096, 0x80 + n / 64 % 64, 0x80 + n % 64]
  else
    [0xF0 + n / 262144, 0x80 + n / 4096 % 64, 0x80 + n / 64 % 64, 0x80 + n % 64]

/-- UTF-8 bytes of a string (Go `[]byte(s)`). -/
def utf8Bytes (s : String) : List ℕ :=
  s.data.flatMap utf8EncodeCharNat

/-- Hex-encoded SHA-256 of a string's UTF-8 bytes
(`hex.EncodeToString(sha256.Sum256([]byte(s)))`). -/
def sha256Hex (s : String) : String :=
  bytesToHex (sha256Bytes (utf8Bytes s))

/-! ## Decision replay digest (`server.go`, §4.3.2) -/

/-- `DecisionReplayInput` (server.go): the canonicalizable decision-trace
fields that feed the replay digest. -/
structure DecisionReplayInput where
  decisionEngine : String
  engineVersion : String
  decisionContract : String
  rolloutMode : String
  decision : String
  reason : String
  cpuScore : ℚ
  entropyScore : ℚ
  confidenceScore : ℚ
deriving DecidableEq

/-- `NormalizeDecisionReplayInput` (server.go): trim every string, lower-case
`rollout_mode`, upper-case `decision`, round each score, then backfill empty
engine / version / contract / rollout fields with the legacy sentinels,
reporting whether any backfill happened. -/
def NormalizeDecisionReplayInput (inp : DecisionReplayInput) :
    DecisionReplayInput × Bool :=
  let de := goTrimSpace inp.decisionEngine
  let ev := goTrimSpace inp.engineVersion
  let dc := goTrimSpace inp.decisionContract
  let rm := goToLower (goTrimSpace inp.rolloutMode)
  ({ decisionEngine := if de = "" then "legacy-decider" else de
     engineVersion := if ev = "" then "legacy-unknown" else ev
     decisionContract := if dc = "" then "legacy-decision-trace" else dc
     rolloutMode := if rm = "" then "legacy" else rm
     decision := goToUpper (goTrimSpace inp.decision)
     reason := goTrimSpace inp.reason
     cpuScore := normalizeReplayScore inp.cpuScore
     entropyScore := normalizeReplayScore inp.entropyScore
     confidenceScore := normalizeReplayScore inp.confidenceScore },
   decide (de = "" ∨ ev = "" ∨ dc = "" ∨ rm = ""))

/-- `DecisionReplayDigest` (server.go): hex SHA-256 of the newline-joined
`key=value` lines of the normalized input. -/
def DecisionReplayDigest (inp : DecisionReplayInput) : String :=
  let normalized := (NormalizeDecisionReplayInput inp).1
  let lines : List String :=
    ["decision_engine=" ++ normalized.decisionEngine,
     "engine_version=" ++ normalized.engineVersion,
     "decision_contract_version=" ++ normalized.decisionContract,
     "rollout_mode=" ++ normalized.rolloutMode,
     "decision=" ++ normalized.decision,
     "reason=" ++ normalized.reason,
     "cpu_score=" ++ formatReplayScore normalized.cpuScore,
     "entropy_score=" ++ formatReplayScore normalized.entropyScore,
     "confidence_score=" ++ formatReplayScore normalized.confidenceScore]
  sha256Hex (String.intercalate "\n" lines)

/-- Spec-side rendering of a canonical score "formatted to exactly 6 decimal
places": sign, integer digits, point, six fraction digits — written from the
spec's words, via `Int.floor` of the score scaled by `10⁶`. -/
def specScoreText6 (q : ℚ) : String :=
  let units : ℤ := ⌊q * 1000000⌋
  (if q < 0 then "-" else "") ++ Nat.repr (units.natAbs / 1000000) ++ "." ++
    zeroPad6 (units.natAbs % 1000000)

/-- Spec-side digest, written from the spec's words: "the hex-encoded SHA-256
of the string formed by joining with newlines the nine `key=value` lines of
the canonicalized fields in the fixed order `decision_engine, engine_version,
decision_contract_version, rollout_mode, decision, reason, cpu_score,
entropy_score, confidence_score`, with each score formatted to exactly 6
decimal places". -/
def specReplayDigest (inp : DecisionReplayInput) : String :=
  let c := (NormalizeDecisionReplayInput inp).1
  sha256Hex (String.intercalate "\n"
    ["decision_engine=" ++ c.decisionEngine,
     "engine_version=" ++ c.engineVersion,
     "decision_contract_version=" ++ c.decisionContract,
     "rollout_mode=" ++ c.rolloutMode,
     "decision=" ++ c.decision,
     "reason=" ++ c.reason,
     "cpu_score=" ++ specScoreText6 c.cpuScore,
     "entropy_score=" ++ specScoreText6 c.entropyScore,
     "confidence_score=" ++ specScoreText6 c.confidenceScore])

/-- The number of characters after the last `.` of a rendered score. -/
def decimalsAfterPoint (s : String) : ℕ :=
  (s.data.reverse.takeWhile (fun c => c ≠ '.')).length

/-- Round-half-to-even ("banker's rounding") to the nearest integer, written
from the claim's words for comparison with the code's `math.Round`. -/
def roundHalfEven (x : ℚ) : ℤ :=
  let f := ⌊x⌋
  if x - f < 1 / 2 then f
  else if x - f > 1 / 2 then f + 1
  else if Even f then f else f + 1

/-- Spec-side score canonicalization under the claim's stated rounding mode:
round to 6 decimal places half-to-even, then collapse `-0` to `0`. -/
def specRoundHalfEven6 (v : ℚ) : ℚ :=
  let rounded : ℚ := (roundHalfEven (v * 1000000) : ℚ) / 1000000
  if rounded = 0 then 0 else rounded

/-! ## Signal-baseline drift monitor (`server.go`, §4.3.3) -/

/-- The decision-trace columns the baseline monitor reads. -/
structure DecisionTrace where
  id : ℤ
  timestamp : String
  pid : ℤ
  cpuScore : ℚ
  entropyScore : ℚ
  confidenceScore : ℚ
  decisionEngine : String
  decisionEngineVersion : String
  policyRolloutMode : String
deriving DecidableEq

/-- `decisionSignalBaselineThresholds` (server.go). -/
structure decisionSignalBaselineThresholds where
  cpuDelta : ℚ
  entropyDelta : ℚ
  confidenceDelta : ℚ
deriving DecidableEq

/-- `decisionSignalBaselineGuardrails` (server.go). -/
structure decisionSignalBaselineGuardrails where
  minBaselineSamples : ℤ
  requiredStreak : ℤ
deriving DecidableEq

/-- `decisionSignalBaselineBuildOptions` (server.go). -/
structure decisionSignalBaselineBuildOptions where
  persistState : Bool
  emitAuditTransitions : Bool
  requestID : String
deriving DecidableEq

/-- A persisted `decision_signal_baseline_state` row. -/
structure DecisionSignalBaselineState where
  bucketKey : String
  latestTraceID : ℤ
  consecutiveBreach : ℤ
  status : String
deriving DecidableEq

/-- The guardrail clamps `buildDecisionSignalBaselineSummary` applies before
evaluating buckets (`<=0` → default, `>cap` → cap; defaults 3 and 2, caps 100
and 10). -/
def clampSignalBaselineGuardrails (g : decisionSignalBaselineGuardrails) :
    decisionSignalBaselineGuardrails :=
  { minBaselineSamples :=
      if g.minBaselineSamples ≤ 0 then 3
      else if g.minBaselineSamples > 100 then 100 else g.minBaselineSamples
    requiredStreak :=
      if g.requiredStreak ≤ 0 then 2
      else if g.requiredStreak > 10 then 10 else g.requiredStreak }

/-- `normalizeSignalBaselineStatus` (server.go): case/space-insensitive match
onto the four statuses, defaulting to `healthy`. -/
def normalizeSignalBaselineStatus (raw : String) : String :=
  let t := goToLower (goTrimSpace raw)
  if t = "pending" then "pending"
  else if t = "at_risk" then "at_risk"
  else if t = "insufficient_history" then "insufficient_history"
  else "healthy"

/-- `normalizeSignalBucketDimension` (server.go). -/
def normalizeSignalBucketDimension (v fallback : String) : String :=
  let t := goTrimSpace v
  if t = "" then fallback else t

/-- `decisionSignalBucketKey` (server.go): `engine@version|rollout`. -/
def decisionSignalBucketKey (t : DecisionTrace) : String :=
  normalizeSignalBucketDimension t.decisionEngine "unknown-engine" ++ "@" ++
    normalizeSignalBucketDimension t.decisionEngineVersion "unknown-version" ++
    "|" ++ normalizeSignalBucketDimension t.policyRolloutMode "unknown-rollout"

/-- `meanSignalScores` (server.go): the three score means, `(0,0,0)` on an
empty list. -/
def meanSignalScores (traces : List DecisionTrace) : ℚ × ℚ × ℚ :=
  if traces.length = 0 then (0, 0, 0)
  else
    ((traces.map (·.cpuScore)).sum / traces.length,
     (traces.map (·.entropyScore)).sum / traces.length,
     (traces.map (·.confidenceScore)).sum / traces.length)

/-- The audit event `emitSignalBaselineTransitionEvent` (server.go) appends. -/
structure SignalBaselineTransitionEvent where
  title : String
  summary : String
  reason : String
  requestID : String
  bucketKey : String
  previousStatus : String
  status : String
  latestTraceID : ℤ
  pid : ℤ
  breachSignalCount : ℕ
  consecutiveBreachCount : ℤ
  requiredStreak : ℤ
  minBaselineSamples : ℤ
  cpuDelta : ℚ
  entropyDelta : ℚ
  confidenceDelta : ℚ
  cpuDeltaThreshold : ℚ
  entropyDeltaThreshold : ℚ
  confidenceDeltaThreshold : ℚ
deriving DecidableEq

/-- `emitSignalBaselineTransitionEvent` (server.go): `none` models the early
return that skips transitions not touching `at_risk`; `some` carries the
appended audit event. -/
def emitSignalBaselineTransitionEvent (requestID bucketKey previousStatus
    currentStatus : String) (guardrails : decisionSignalBaselineGuardrails)
    (thresholds : decisionSignalBaselineThresholds) (latest : DecisionTrace)
    (breachSignalCount : ℕ) (consecutiveBreachCount : ℤ)
    (cpuDelta entropyDelta confidenceDelta : ℚ) :
    Option SignalBaselineTransitionEvent :=
  let p := normalizeSignalBaselineStatus previousStatus
  let c := normalizeSignalBaselineStatus currentStatus
  if ¬(p = "at_risk" ∨ c = "at_risk") then none
  else
    some
      { title := if c = "at_risk" then "SIGNAL_BASELINE_AT_RISK"
                 else "SIGNAL_BASELINE_RECOVERED"
        summary := if c = "at_risk" then
            "signal baseline drift breached guardrail for " ++ bucketKey
          else "signal baseline recovered for " ++ bucketKey
        reason := "signal baseline transition " ++ p ++ " -> " ++ c ++
          " (bucket=" ++ bucketKey ++ ", breaches=" ++
          Nat.repr breachSignalCount ++ ", streak=" ++
          toString consecutiveBreachCount ++ "/" ++
          toString guardrails.requiredStreak ++ ")"
        requestID := requestID
        bucketKey := bucketKey
        previousStatus := p
        status := c
        latestTraceID := latest.id
        pid := latest.pid
        breachSignalCount := breachSignalCount
        consecutiveBreachCount := consecutiveBreachCount
        requiredStreak := guardrails.requiredStreak
        minBaselineSamples := guardrails.minBaselineSamples
        cpuDelta := cpuDelta
        entropyDelta := entropyDelta
        confidenceDelta := confidenceDelta
        cpuDeltaThreshold := thresholds.cpuDelta
        entropyDeltaThreshold := thresholds.entropyDelta
        confidenceDeltaThreshold := thresholds.confidenceDelta }

/-- What one bucket evaluation of `buildDecisionSignalBaselineSummary`
reports, persists and emits. -/
structure BucketEvalResult where
  status : String
  consecutiveBreachCount : ℤ
  breachSignalCount : ℕ
  baselineSampleCount : ℕ
  cpuDelta : ℚ
  entropyDelta : ℚ
  confidenceDelta : ℚ
  insufficientHistory : Bool
  pendingEscalation : Bool
  latestIsNew : Bool
  stateTransition : Option (String × String)
  persist : Option DecisionSignalBaselineState
  event : Option SignalBaselineTransitionEvent
deriving DecidableEq

/-- The drift computation of one bucket (server.go, lines 1199–1221): the
bucket's traces arrive newest-first as `latest :: rest`; a single-trace
bucket keeps `bucketTraces` itself as `baselineTraces`, a larger one drops
the latest (`bucketTraces[1:]`). -/
structure SignalDriftStats where
  cpuDelta : ℚ
  entropyDelta : ℚ
  confidenceDelta : ℚ
  cpuDrift : Bool
  entropyDrift : Bool
  confidenceDrift : Bool
  breachSignalCount : ℕ
  baselineSampleCount : ℕ
deriving DecidableEq

/-- Deltas of the latest trace against the baseline means and the count of
signals whose absolute delta reaches its threshold. -/
def computeSignalDriftStats (latest : DecisionTrace)
    (rest : List DecisionTrace)
    (thresholds : decisionSignalBaselineThresholds) : SignalDriftStats :=
  let bucketTraces := latest :: rest
  let baselineTraces := if bucketTraces.length > 1 then rest else bucketTraces
  let means := meanSignalScores baselineTraces
  let cpuDelta := latest.cpuScore - means.1
  let entropyDelta := latest.entropyScore - means.2.1
  let confidenceDelta := latest.confidenceScore - means.2.2
  let cpuDrift := decide (|cpuDelta| ≥ thresholds.cpuDelta)
  let entropyDrift := decide (|entropyDelta| ≥ thresholds.entropyDelta)
  let confidenceDrift := decide (|confidenceDelta| ≥ thresholds.confidenceDelta)
  { cpuDelta := cpuDelta
    entropyDelta := entropyDelta
    confidenceDelta := confidenceDelta
    cpuDrift := cpuDrift
    entropyDrift := entropyDrift
    confidenceDrift := confidenceDrift
    breachSignalCount :=
      (if cpuDrift then 1 else 0) + (if entropyDrift then 1 else 0) +
        (if confidenceDrift then 1 else 0)
    baselineSampleCount := baselineTraces.length }

/-- The loaded-row normalization (server.go, lines 1227–1245): missing row →
a healthy default on the bucket key; then normalize the status and clamp
negative counters and trace IDs to zero. -/
def normalizePreviousRow (latest : DecisionTrace)
    (previousRow : Option DecisionSignalBaselineState) :
    DecisionSignalBaselineState :=
  let loaded := previousRow.getD
    { bucketKey := decisionSignalBucketKey latest, latestTraceID := 0,
      consecutiveBreach := 0, status := "healthy" }
  { loaded with
    status := normalizeSignalBaselineStatus loaded.status
    consecutiveBreach :=
      if loaded.consecutiveBreach < 0 then 0 else loaded.consecutiveBreach
    latestTraceID :=
      if loaded.latestTraceID < 0 then 0 else loaded.latestTraceID }

/-- The status switch (server.go, lines 1246–1275): returns the new
consecutive-breach count, the status, and the pending-escalation flag. -/
def signalBaselineStep (previous : DecisionSignalBaselineState)
    (latestIsNew : Bool) (insufficientHistory : Bool)
    (breachSignalCount : ℕ) (requiredStreak : ℤ) : ℤ × String × Bool :=
  if insufficientHistory then (0, "insufficient_history", false)
  else if breachSignalCount = 0 then (0, "healthy", false)
  else
    let c1 :=
      if latestIsNew then
        if previous.status = "pending" ∨ previous.status = "at_risk" then
          previous.consecutiveBreach + 1
        else 1
      else previous.consecutiveBreach
    let c2 := if c1 ≤ 0 then 1 else c1
    if c2 ≥ requiredStreak then (c2, "at_risk", false)
    else (c2, "pending", true)

/-- The per-bucket body of `buildDecisionSignalBaselineSummary` (server.go,
lines 1196–1352), assembled from the pieces above; the previously persisted
row arrives as `previousRow` (`none` models `sql.ErrNoRows`); the persisted
row and emitted audit event are returned explicitly. -/
def buildDecisionSignalBaselineBucket (latest : DecisionTrace)
    (rest : List DecisionTrace)
    (thresholds : decisionSignalBaselineThresholds)
    (guardrailsRaw : decisionSignalBaselineGuardrails)
    (options : decisionSignalBaselineBuildOptions)
    (previousRow : Option DecisionSignalBaselineState) : BucketEvalResult :=
  let guardrails := clampSignalBaselineGuardrails guardrailsRaw
  let stats := computeSignalDriftStats latest rest thresholds
  let insufficientHistory :=
    decide ((stats.baselineSampleCount : ℤ) < guardrails.minBaselineSamples)
  let hasPrevious := previousRow.isSome
  let previous := normalizePreviousRow latest previousRow
  let latestIsNew := !hasPrevious || decide (latest.id ≠ previous.latestTraceID)
  let step := signalBaselineStep previous latestIsNew insufficientHistory
    stats.breachSignalCount guardrails.requiredStreak
  let consecutive := step.1
  let status := step.2.1
  let stateTransition :=
    if hasPrevious ∧ previous.status ≠ status then
      some (previous.status, status)
    else none
  let shouldPersist := ¬hasPrevious ∨ previous.latestTraceID ≠ latest.id ∨
    previous.consecutiveBreach ≠ consecutive ∨ previous.status ≠ status
  let persist :=
    if options.persistState ∧ shouldPersist then
      some { bucketKey := decisionSignalBucketKey latest,
             latestTraceID := latest.id, consecutiveBreach := consecutive,
             status := status }
    else none
  let event :=
    if options.persistState ∧ options.emitAuditTransitions ∧ hasPrevious ∧
        previous.status ≠ status then
      emitSignalBaselineTransitionEvent (goTrimSpace options.requestID)
        (decisionSignalBucketKey latest) previous.status status guardrails
        thresholds latest stats.breachSignalCount consecutive stats.cpuDelta
        stats.entropyDelta stats.confidenceDelta
    else none
  { status := status
    consecutiveBreachCount := consecutive
    breachSignalCount := stats.breachSignalCount
    baselineSampleCount := stats.baselineSampleCount
    cpuDelta := stats.cpuDelta
    entropyDelta := stats.entropyDelta
    confidenceDelta := stats.confidenceDelta
    insufficientHistory := insufficientHistory
    pendingEscalation := step.2.2
    latestIsNew := latestIsNew
    stateTransition := stateTransition
    persist := persist
    event := event }

/-- Spec-side baseline of a bucket as the claim must be amended: the traces
other than the latest when the bucket holds more than one, the latest itself
alone otherwise (the code's `bucketTraces` / `bucketTraces[1:]` choice). -/
def specBaselineTraces (latest : DecisionTrace) (rest : List DecisionTrace) :
    List DecisionTrace :=
  if rest = [] then [latest] else rest

/-- Spec-side mean of one signal over a trace list, written from the spec's
"compute mean of cpu/entropy/confidence over the baseline". -/
def specMean (f : DecisionTrace → ℚ) (l : List DecisionTrace) : ℚ :=
  if l = [] then 0 else l.foldl (fun acc t => acc + f t) 0 / l.length

/-- Spec-side drifting-signal count, written from the spec's "a signal drifts
when `|latest − mean| ≥ threshold`"; counts over the three signals. -/
def specBreachSignalCount (latest : DecisionTrace)
    (rest : List DecisionTrace)
    (thresholds : decisionSignalBaselineThresholds) : ℕ :=
  let b := specBaselineTraces latest rest
  (if |latest.cpuScore - specMean (·.cpuScore) b| ≥ thresholds.cpuDelta
    then 1 else 0) +
  (if |latest.entropyScore - specMean (·.entropyScore) b| ≥
      thresholds.entropyDelta then 1 else 0) +
  (if |latest.confidenceScore - specMean (·.confidenceScore) b| ≥
      thresholds.confidenceDelta then 1 else 0)

/-! ## HTTP auth, rate limiting and problem types (`server.go`, §4.6) -/

/-- An RFC 7807 error as the handlers produce it: HTTP status plus the
`detail` string `problemPayload` receives. -/
structure HTTPError where
  status : ℕ
  detail : String
deriving DecidableEq

/-- `problemTypeBaseURI` (server.go). -/
def problemTypeBaseURI : String := "https://flowforge.dev/problems/"

/-- Whether `pat` occurs inside `l` (Go `strings.Contains` on rune lists),
by scanning every position. -/
def containsAt : List Char → List Char → Bool
  | [], pat => pat.isEmpty
  | a :: l, pat => pat.isPrefixOf (a :: l) || containsAt l pat

/-- Go `strings.Contains s pat`. -/
def goContains (s pat : String) : Bool :=
  containsAt s.data pat.data

/-- `problemTypeURI` (server.go): map status code (and, for 409/429, the
lower-cased detail) to the stable problem type URI. -/
def problemTypeURI (statusCode : ℕ) (detail : String) : String :=
  let detailLower := goToLower (goTrimSpace detail)
  if statusCode = 400 then problemTypeBaseURI ++ "bad-request"
  else if statusCode = 401 then problemTypeBaseURI ++ "unauthorized"
  else if statusCode = 403 then problemTypeBaseURI ++ "forbidden"
  else if statusCode = 404 then problemTypeBaseURI ++ "not-found"
  else if statusCode = 405 then problemTypeBaseURI ++ "method-not-allowed"
  else if statusCode = 409 then
    if goContains detailLower "idempotency" then
      problemTypeBaseURI ++ "idempotency-conflict"
    else problemTypeBaseURI ++ "conflict"
  else if statusCode = 429 then
    if goContains detailLower "restart budget" then
      problemTypeBaseURI ++ "restart-budget-exceeded"
    else if goContains detailLower "auth attempt" then
      problemTypeBaseURI ++ "auth-rate-limited"
    else problemTypeBaseURI ++ "rate-limited"
  else if statusCode = 503 then problemTypeBaseURI ++ "not-ready"
  else if statusCode = 500 then problemTypeBaseURI ++ "internal"
  else problemTypeBaseURI ++ "http-" ++ Nat.repr statusCode

/-- `isUnsafeMethod` (server.go): everything but GET/HEAD/OPTIONS/TRACE
(after upper-casing and trimming) is unsafe. -/
def isUnsafeMethod (method : String) : Bool :=
  let m := goToUpper (goTrimSpace method)
  !(m = "GET" || m = "HEAD" || m = "OPTIONS" || m = "TRACE")

/-- One `limiterEntry` of the per-IP rate limiter; times are nanoseconds on
`ℤ` (Go `time.Time` / `time.Duration`). -/
structure limiterEntry where
  windowStart : ℤ
  requestCount : ℤ
  authFailures : ℤ
  blockedUntil : ℤ
deriving DecidableEq

/-- `time.Minute` in nanoseconds. -/
def minuteNanos : ℤ := 60000000000

/-- The `apiLimiter` block duration, `10*time.Minute`, in nanoseconds. -/
def blockDurationNanos : ℤ := 600000000000

/-- The fresh entry `getEntry` creates: window starts now; the Go zero
`time.Time` for `blockedUntil` is far in the past, modelled as `0` with
scenario clocks kept `≥ 0`. -/
def freshLimiterEntry (now : ℤ) : limiterEntry :=
  { windowStart := now, requestCount := 0, authFailures := 0,
    blockedUntil := 0 }

/-- The shared minute-window reset both limiter operations perform. -/
def rlWindowReset (e : limiterEntry) (now : ℤ) : limiterEntry :=
  if now - e.windowStart ≥ minuteNanos then
    { e with windowStart := now, requestCount := 0, authFailures := 0 }
  else e

/-- `rateLimiter.allow` (server.go) on one IP's entry, with the `apiLimiter`
request limit 120: blocked IPs are refused before any counting. -/
def rateLimiterAllow (e : limiterEntry) (now : ℤ) : Bool × limiterEntry :=
  if now < e.blockedUntil then (false, e)
  else
    let e1 := rlWindowReset e now
    let e2 := { e1 with requestCount := e1.requestCount + 1 }
    (decide (e2.requestCount ≤ 120), e2)

/-- `rateLimiter.addAuthFailure` (server.go) with the `apiLimiter` auth-fail
limit 10: reaching the limit installs the block and reports `true`. -/
def rateLimiterAddAuthFailure (e : limiterEntry) (now : ℤ) :
    Bool × limiterEntry :=
  let e1 := rlWindowReset e now
  let e2 := { e1 with authFailures := e1.authFailures + 1 }
  if e2.authFailures ≥ 10 then
    (true, { e2 with blockedUntil := now + blockDurationNanos })
  else (false, e2)

/-- `rateLimiter.clearAuthFailures` (server.go). -/
def rateLimiterClearAuthFailures (e : limiterEntry) : limiterEntry :=
  { e with authFailures := 0 }

/-- `requireAuth` (server.go) on one IP's limiter entry: `none` means the
request passes; `some` is the error response written. -/
def requireAuth (apiKey method authHeader : String) (e : limiterEntry)
    (now : ℤ) : Option HTTPError × limiterEntry :=
  if apiKey = "" then
    if isUnsafeMethod method then
      (some ⟨403, "Security Alert: You must set FLOWFORGE_API_KEY environment variable to perform mutations."⟩, e)
    else (none, e)
  else if !goStartsWith authHeader "Bearer " then
    let r := rateLimiterAddAuthFailure e now
    if r.1 then (some ⟨429, "Too many failed auth attempts. Retry later."⟩, r.2)
    else (some ⟨401, "Authorization required"⟩, r.2)
  else
    let token := goTrimSpace (goDropStart authHeader "Bearer ")
    if token ≠ apiKey then
      let r := rateLimiterAddAuthFailure e now
      if r.1 then
        (some ⟨429, "Too many failed auth attempts. Retry later."⟩, r.2)
      else (some ⟨403, "Invalid API key"⟩, r.2)
    else (none, rateLimiterClearAuthFailures e)

/-- The `withSecurity` middleware's rate-limit gate followed by the
handler's `requireAuth` (the full pipeline an authenticated mutation passes
through). -/
def securityThenAuth (apiKey method authHeader : String) (e : limiterEntry)
    (now : ℤ) : Option HTTPError × limiterEntry :=
  let a := rateLimiterAllow e now
  if !a.1 then (some ⟨429, "rate limit exceeded"⟩, a.2)
  else requireAuth apiKey method authHeader a.2 now

/-- How far `HandleProcessKill` (server.go) gets before its business logic:
an early response, the OPTIONS short-circuit, or entry into the mutation. -/
inductive KillFlow where
  | responded (err : HTTPError)
  | okOptions
  | proceeded
deriving DecidableEq

/-- The dispatch and auth gate of `HandleProcessKill` (server.go): OPTIONS →
200, non-POST → 405, then `requireAuth`. -/
def HandleProcessKillGate (apiKey method authHeader : String)
    (e : limiterEntry) (now : ℤ) : KillFlow × limiterEntry :=
  if method = "OPTIONS" then (.okOptions, e)
  else if method ≠ "POST" then
    (.responded ⟨405, "Method not allowed"⟩, e)
  else
    let r := requireAuth apiKey method authHeader e now
    match r.1 with
    | some err => (.responded err, r.2)
    | none => (.proceeded, r.2)

/-- Run `n` identical wrong-bearer requests through the full pipeline from
one IP at one instant, threading the limiter entry and collecting the error
responses in request order (a pass, which the wrong-bearer scenario never
produces, would record status 0). -/
def runSteps (apiKey tok : String) (t0 : ℤ) (e : limiterEntry) :
    ℕ → List HTTPError
  | 0 => []
  | n + 1 =>
    let r := securityThenAuth apiKey "POST" ("Bearer " ++ tok) e t0
    r.1.getD ⟨0, ""⟩ :: runSteps apiKey tok t0 r.2 n

/-- The brute-force scenario: `n` wrong-bearer requests from one previously
unseen IP, all at time `t0`. -/
def runWrongBearer (apiKey tok : String) (t0 : ℤ) (n : ℕ) : List HTTPError :=
  runSteps apiKey tok t0 (freshLimiterEntry t0) n

/-! ## Process-state snapshots (`state.go`) with explicit slice aliasing -/

/-- The slice-bearing part of `ProcessState`: a Go slice value is a
reference into a heap of string arrays, so a struct copy copies the
reference, not the elements. -/
structure ProcessStateRef where
  cpu : ℚ
  status : String
  pid : ℤ
  argsRef : ℕ
deriving DecidableEq

/-- The package-global state of `internal/state`: the single current
`ProcessState` plus the heap its `Args` slice points into. -/
structure StateGlobal where
  heap : List (List String)
  current : ProcessStateRef
deriving DecidableEq

/-- `UpdateState` (state.go): `argsCopy := append([]string(nil), args...)`
allocates a fresh array, so the stored state points at a private copy. -/
def UpdateState (g : StateGlobal) (cpu : ℚ) (status : String) (pid : ℤ)
    (args : List String) : StateGlobal :=
  { heap := g.heap ++ [args],
    current :=
      { cpu := cpu, status := status, pid := pid, argsRef := g.heap.length } }

/-- `GetState` (state.go): `return currentState` — a Go struct copy, which
copies the `Args` slice header (the heap reference), not the elements. -/
def GetState (g : StateGlobal) : ProcessStateRef :=
  g.current

/-- Read the strings a slice reference points at. -/
def sliceRead (g : StateGlobal) (r : ℕ) : List String :=
  g.heap.getD r []

/-- `s.Args[i] = v` on a snapshot `s`: writes through the slice reference
into the shared heap. -/
def sliceWrite (g : StateGlobal) (r i : ℕ) (v : String) : StateGlobal :=
  { g with heap := g.heap.set r ((g.heap.getD r []).set i v) }

/-! ## Audit actor attribution (`server.go`) -/

/-- `actorFromRequest` (server.go): any trimmed Authorization header with a
`Bearer ` prefix is recorded as the constant `api-key`, anything else as
`anonymous`; no token material is read. -/
def actorFromRequest (authHeader : String) : String :=
  if goStartsWith (goTrimSpace authHeader) "Bearer " then "api-key"
  else "anonymous"

/-! ## Helper lemmas: trimming and ASCII case mapping -/

theorem dropWhile_self {α : Type} (p : α → Bool) (l : List α) :
    List.dropWhile p (List.dropWhile p l) = List.dropWhile p l := by
  induction l with
  | nil => simp
  | cons a l ih =>
    by_cases h : p a
    · simp [List.dropWhile_cons, h, ih]
    · simp [List.dropWhile_cons, h]

theorem goTrimLeftChars_idem (l : List Char) :
    goTrimLeftChars (goTrimLeftChars l) = goTrimLeftChars l :=
  dropWhile_self isGoSpace l

theorem goTrimRightChars_idem (l : List Char) :
    goTrimRightChars (goTrimRightChars l) = goTrimRightChars l := by
  simp [goTrimRightChars, dropWhile_self]

theorem goTrimRightChars_isPre (l : List Char) : goTrimRightChars l <+: l := by
  have h := List.dropWhile_suffix (l := l.reverse) isGoSpace
  have h2 := List.reverse_prefix.mpr h
  simpa [goTrimRightChars] using h2

theorem goTrimLeft_of_stable (l : List Char)
    (h : List.dropWhile isGoSpace l = l) :
    goTrimLeftChars (goTrimRightChars l) = goTrimRightChars l := by
  cases l with
  | nil => simp [goTrimRightChars, goTrimLeftChars]
  | cons a t =>
    have ha : isGoSpace a = false := by
      by_contra hc
      have ha' : isGoSpace a = true := by
        cases hh : isGoSpace a with
        | false => exact absurd hh hc
        | true => rfl
      rw [List.dropWhile_cons, if_pos ha'] at h
      have hlen := congrArg List.length h
      have hle : (t.dropWhile isGoSpace).length ≤ t.length :=
        (List.dropWhile_suffix isGoSpace).sublist.length_le
      simp at hlen
      omega
    obtain ⟨k, hk⟩ := goTrimRightChars_isPre (a :: t)
    cases hr : goTrimRightChars (a :: t) with
    | nil => simp [goTrimLeftChars]
    | cons b u =>
      rw [hr] at hk
      have hb : b = a := by
        have := congrArg (fun x => x.head?) hk
        simpa using this
      subst hb
      simp [goTrimLeftChars, List.dropWhile_cons, ha]

theorem goTrimChars_idem (l : List Char) :
    goTrimChars (goTrimChars l) = goTrimChars l := by
  unfold goTrimChars
  rw [goTrimLeft_of_stable (goTrimLeftChars l) (goTrimLeftChars_idem l)]
  exact goTrimRightChars_idem (goTrimLeftChars l)

theorem goTrimSpace_idem (s : String) :
    goTrimSpace (goTrimSpace s) = goTrimSpace s :=
  String.ext (by simpa [goTrimSpace] using goTrimChars_idem s.data)

theorem char_toNat_ofNat {n : ℕ} (h : n < 55296) : (Char.ofNat n).toNat = n := by
  have hv : Nat.isValidChar n := Or.inl h
  simp [Char.ofNat, hv, Char.ofNatAux, Char.toNat, UInt32.toNat,
    BitVec.toNat_ofNatLt]

theorem isGoSpace_of_letter {c : Char} (h1 : 65 ≤ c.toNat)
    (h2 : c.toNat ≤ 122) : isGoSpace c = false := by
  simp only [isGoSpace, Bool.or_eq_false_iff, Bool.and_eq_false_iff,
    beq_eq_false_iff_ne, ne_eq, decide_eq_false_iff_not, not_le]
  omega

theorem charAsciiUpper_toNat {c : Char} (h : 97 ≤ c.toNat ∧ c.toNat ≤ 122) :
    (charAsciiUpper c).toNat = c.toNat - 32 := by
  rw [charAsciiUpper, if_pos h]
  exact char_toNat_ofNat (by omega)

theorem charAsciiLower_toNat {c : Char} (h : 65 ≤ c.toNat ∧ c.toNat ≤ 90) :
    (charAsciiLower c).toNat = c.toNat + 32 := by
  rw [charAsciiLower, if_pos h]
  exact char_toNat_ofNat (by omega)

theorem charAsciiUpper_idem (c : Char) :
    charAsciiUpper (charAsciiUpper c) = charAsciiUpper c := by
  by_cases h : 97 ≤ c.toNat ∧ c.toNat ≤ 122
  · have ht := charAsciiUpper_toNat h
    conv_lhs => rw [charAsciiUpper]
    rw [if_neg (by omega)]
  · simp [charAsciiUpper, h]

theorem charAsciiLower_idem (c : Char) :
    charAsciiLower (charAsciiLower c) = charAsciiLower c := by
  by_cases h : 65 ≤ c.toNat ∧ c.toNat ≤ 90
  · have ht := charAsciiLower_toNat h
    conv_lhs => rw [charAsciiLower]
    rw [if_neg (by omega)]
  · simp [charAsciiLower, h]

theorem isGoSpace_charAsciiUpper (c : Char) :
    isGoSpace (charAsciiUpper c) = isGoSpace c := by
  by_cases h : 97 ≤ c.toNat ∧ c.toNat ≤ 122
  · have ht := charAsciiUpper_toNat h
    rw [isGoSpace_of_letter (by omega) (by omega),
      isGoSpace_of_letter (by omega) (by omega)]
  · simp [charAsciiUpper, h]

theorem isGoSpace_charAsciiLower (c : Char) :
    isGoSpace (charAsciiLower c) = isGoSpace c := by
  by_cases h : 65 ≤ c.toNat ∧ c.toNat ≤ 90
  · have ht := charAsciiLower_toNat h
    rw [isGoSpace_of_letter (by omega) (by omega),
      isGoSpace_of_letter (by omega) (by omega)]
  · simp [charAsciiLower, h]

theorem goTrimChars_map (f : Char → Char)
    (hf : ∀ c, isGoSpace (f c) = isGoSpace c) (l : List Char) :
    goTrimChars (l.map f) = (goTrimChars l).map f := by
  have hcomp : (isGoSpace ∘ f) = isGoSpace := funext hf
  have hleft : ∀ m : List Char,
      goTrimLeftChars (m.map f) = (goTrimLeftChars m).map f := by
    intro m
    simp [goTrimLeftChars, List.dropWhile_map, hcomp]
  have hright : ∀ m : List Char,
      goTrimRightChars (m.map f) = (goTrimRightChars m).map f := by
    intro m
    simp [goTrimRightChars, ← List.map_reverse, List.dropWhile_map, hcomp]
  rw [goTrimChars, hleft, hright, goTrimChars]

theorem goToUpper_trim_stable (s : String) :
    goToUpper (goTrimSpace (goToUpper (goTrimSpace s))) =
      goToUpper (goTrimSpace s) := by
  apply String.ext
  simp only [goToUpper, goTrimSpace]
  rw [goTrimChars_map charAsciiUpper isGoSpace_charAsciiUpper,
    goTrimChars_idem, List.map_map]
  exact List.map_congr_left fun c _ => charAsciiUpper_idem c

theorem goToLower_trim_stable (s : String) :
    goToLower (goTrimSpace (goToLower (goTrimSpace s))) =
      goToLower (goTrimSpace s) := by
  apply String.ext
  simp only [goToLower, goTrimSpace]
  rw [goTrimChars_map charAsciiLower isGoSpace_charAsciiLower,
    goTrimChars_idem, List.map_map]
  exact List.map_congr_left fun c _ => charAsciiLower_idem c

/-! ## Helper lemmas: score rounding -/

theorem normalizeReplayScore_eq (v : ℚ) :
    normalizeReplayScore v = (goRound (v * 1000000) : ℚ) / 1000000 := by
  show (if ((goRound (v * 1000000) : ℚ) / 1000000) = 0 then (0 : ℚ)
    else (goRound (v * 1000000) : ℚ) / 1000000) = _
  split_ifs with h
  · exact h.symm
  · rfl

theorem goRound_intCast (k : ℤ) : goRound (k : ℚ) = k := by
  unfold goRound
  split_ifs with h
  · rw [show (k : ℚ) + 1 / 2 = 1 / 2 + (k : ℚ) by ring, Int.floor_add_int]
    norm_num
  · rw [show -(k : ℚ) + 1 / 2 = 1 / 2 + (-k : ℤ) by push_cast; ring,
      Int.floor_add_int]
    norm_num

theorem normalizeReplayScore_intdiv (k : ℤ) :
    normalizeReplayScore ((k : ℚ) / 1000000) = (k : ℚ) / 1000000 := by
  rw [normalizeReplayScore_eq,
    show (k : ℚ) / 1000000 * 1000000 = (k : ℚ) by field_simp,
    goRound_intCast]

theorem normalizeReplayScore_idem (v : ℚ) :
    normalizeReplayScore (normalizeReplayScore v) = normalizeReplayScore v := by
  rw [normalizeReplayScore_eq v]
  exact normalizeReplayScore_intdiv _

theorem goRound_dist (x : ℚ) : |(goRound x : ℚ) - x| ≤ 1 / 2 := by
  unfold goRound
  split_ifs with h
  · have h1 := Int.floor_le (x + 1 / 2)
    have h2 := Int.lt_floor_add_one (x + 1 / 2)
    rw [abs_le]
    constructor <;> linarith
  · have h1 := Int.floor_le (-x + 1 / 2)
    have h2 := Int.lt_floor_add_one (-x + 1 / 2)
    rw [abs_le]
    push_cast
    constructor <;> linarith

theorem goRound_tie_away (x : ℚ) (ht : |(goRound x : ℚ) - x| = 1 / 2) :
    |x| ≤ |(goRound x : ℚ)| := by
  rw [abs_eq (by norm_num : (0 : ℚ) ≤ 1 / 2)] at ht
  unfold goRound at ht ⊢
  split_ifs at ht ⊢ with h
  · have h2 := Int.lt_floor_add_one (x + 1 / 2)
    rcases ht with ht | ht
    · rw [abs_of_nonneg h, abs_of_nonneg (by linarith : (0 : ℚ) ≤ ⌊x + 1 / 2⌋)]
      linarith
    · linarith
  · push_neg at h
    have h2 := Int.lt_floor_add_one (-x + 1 / 2)
    push_cast at ht ⊢
    rcases ht with ht | ht
    · linarith
    · rw [abs_of_neg h, abs_of_nonpos (by linarith :
        (-(⌊-x + 1 / 2⌋ : ℚ)) ≤ 0)]
      linarith

/-! ## Helper lemmas: canonicalization idempotence -/

theorem trimBackfill_stable (s d : String) (hd : goTrimSpace d = d)
    (hne : d ≠ "") :
    goTrimSpace (if goTrimSpace s = "" then d else goTrimSpace s) =
        (if goTrimSpace s = "" then d else goTrimSpace s) ∧
      (if goTrimSpace s = "" then d else goTrimSpace s) ≠ "" := by
  by_cases h : goTrimSpace s = ""
  · simp [h, hd, hne]
  · simp [h, goTrimSpace_idem]

theorem lowerBackfill_stable (s d : String)
    (hd : goToLower (goTrimSpace d) = d) (hne : d ≠ "") :
    goToLower (goTrimSpace (if goToLower (goTrimSpace s) = "" then d
        else goToLower (goTrimSpace s))) =
        (if goToLower (goTrimSpace s) = "" then d
          else goToLower (goTrimSpace s)) ∧
      (if goToLower (goTrimSpace s) = "" then d
        else goToLower (goTrimSpace s)) ≠ "" := by
  by_cases h : goToLower (goTrimSpace s) = ""
  · simp [h, hd, hne]
  · simp [h, goToLower_trim_stable]

theorem NormalizeDecisionReplayInput_idem (inp : DecisionReplayInput) :
    NormalizeDecisionReplayInput (NormalizeDecisionReplayInput inp).1 =
      ((NormalizeDecisionReplayInput inp).1, false) := by
  have hde := trimBackfill_stable inp.decisionEngine "legacy-decider"
    (by decide) (by decide)
  have hev := trimBackfill_stable inp.engineVersion "legacy-unknown"
    (by decide) (by decide)
  have hdc := trimBackfill_stable inp.decisionContract "legacy-decision-trace"
    (by decide) (by decide)
  have hrm := lowerBackfill_stable inp.rolloutMode "legacy"
    (by decide) (by decide)
  have hre := goTrimSpace_idem inp.reason
  unfold NormalizeDecisionReplayInput
  simp only [Prod.mk.injEq, DecisionReplayInput.mk.injEq]
  refine ⟨⟨?_, ?_, ?_, ?_, ?_, ?_, ?_, ?_, ?_⟩, ?_⟩
  · rw [hde.1, if_neg hde.2]
  · rw [hev.1, if_neg hev.2]
  · rw [hdc.1, if_neg hdc.2]
  · rw [hrm.1, if_neg hrm.2]
  · exact goToUpper_trim_stable inp.decision
  · exact hre
  · exact normalizeReplayScore_idem inp.cpuScore
  · exact normalizeReplayScore_idem inp.entropyScore
  · exact normalizeReplayScore_idem inp.confidenceScore
  · simp only [decide_eq_false_iff_not, not_or]
    refine ⟨?_, ?_, ?_, ?_⟩
    · rw [hde.1]; exact hde.2
    · rw [hev.1]; exact hev.2
    · rw [hdc.1]; exact hdc.2
    · rw [hrm.1]; exact hrm.2

/-! ## Helper lemmas: score rendering -/

theorem intdiv_lt_zero_iff (k : ℤ) : (k : ℚ) / 1000000 < 0 ↔ k < 0 := by
  rw [div_lt_iff₀ (by norm_num : (0 : ℚ) < 1000000)]
  norm_num

theorem fmtFixed6_eq_specScoreText6 (k : ℤ) :
    fmtFixed6 ((k : ℚ) / 1000000) = specScoreText6 ((k : ℚ) / 1000000) := by
  unfold fmtFixed6 specScoreText6
  dsimp only
  rw [show (k : ℚ) / 1000000 * 1000000 = (k : ℚ) by field_simp,
    goRound_intCast, Int.floor_intCast]
  by_cases h : k < 0
  · rw [if_pos h, if_pos ((intdiv_lt_zero_iff k).mpr h)]
  · rw [if_neg h, if_neg (fun hc => h ((intdiv_lt_zero_iff k).mp hc))]

theorem formatReplayScore_normalized (v : ℚ) :
    formatReplayScore (normalizeReplayScore v) =
      specScoreText6 (normalizeReplayScore v) := by
  rw [normalizeReplayScore_eq v, formatReplayScore,
    normalizeReplayScore_intdiv, fmtFixed6_eq_specScoreText6]

theorem decDigit_ne_dot (n : ℕ) : (decDigit n = '.') = False := by
  simp only [eq_iff_iff, iff_false]
  intro h
  have h1 : (decDigit n).toNat = 48 + n % 10 := by
    have : 48 + n % 10 < 55296 := by omega
    simpa [decDigit] using char_toNat_ofNat this
  rw [h] at h1
  simp at h1
  omega

theorem decimalsAfterPoint_fmtFixed6 (r : ℚ) :
    decimalsAfterPoint (fmtFixed6 r) = 6 := by
  unfold decimalsAfterPoint fmtFixed6 zeroPad6
  by_cases h : goRound (r * 1000000) < 0 <;>
    simp [h, String.data_append, List.takeWhile_cons, decDigit_ne_dot]

/-! ## Helper lemmas: baseline means and statuses -/

theorem foldl_add_map (f : DecisionTrace → ℚ) (l : List DecisionTrace)
    (a : ℚ) : l.foldl (fun acc t => acc + f t) a = a + (l.map f).sum := by
  induction l generalizing a with
  | nil => simp
  | cons t l ih => simp [ih, add_assoc]

theorem meanSignalScores_eq_spec (l : List DecisionTrace) :
    meanSignalScores l =
      (specMean (·.cpuScore) l, specMean (·.entropyScore) l,
        specMean (·.confidenceScore) l) := by
  unfold meanSignalScores specMean
  rcases l with _ | ⟨t, l⟩
  · simp
  · simp [foldl_add_map]

theorem specBaselineTraces_eq (latest : DecisionTrace)
    (rest : List DecisionTrace) :
    specBaselineTraces latest rest =
      (if (latest :: rest).length > 1 then rest else latest :: rest) := by
  rcases rest with _ | ⟨t, l⟩ <;> simp [specBaselineTraces]

theorem normalizeSignalBaselineStatus_mem (raw : String) :
    normalizeSignalBaselineStatus raw = "pending" ∨
      normalizeSignalBaselineStatus raw = "at_risk" ∨
      normalizeSignalBaselineStatus raw = "insufficient_history" ∨
      normalizeSignalBaselineStatus raw = "healthy" := by
  unfold normalizeSignalBaselineStatus
  dsimp only
  split_ifs <;> simp

theorem normalizeSignalBaselineStatus_idem (raw : String) :
    normalizeSignalBaselineStatus (normalizeSignalBaselineStatus raw) =
      normalizeSignalBaselineStatus raw := by
  rcases normalizeSignalBaselineStatus_mem raw with h | h | h | h <;>
    rw [h] <;> decide

/-! ## Helper lemmas: header parsing -/

theorem goStartsWith_append (p t : String) : goStartsWith (p ++ t) p = true := by
  rw [goStartsWith, String.data_append, List.isPrefixOf_iff_prefix]
  exact List.prefix_append p.data t.data

theorem goDropStart_append (p t : String) : goDropStart (p ++ t) p = t := by
  rw [goDropStart, if_pos (goStartsWith_append p t)]
  apply String.ext
  rw [String.data_append, List.drop_left]

theorem goTrimRightChars_ne_nil {t : List Char}
    (h : ∃ c ∈ t, isGoSpace c = false) : goTrimRightChars t ≠ [] := by
  obtain ⟨c, hm, hf⟩ := h
  intro hc
  have : t.reverse.dropWhile isGoSpace = [] := by
    have := congrArg List.reverse hc
    simpa [goTrimRightChars] using this
  rw [List.dropWhile_eq_nil_iff] at this
  have := this c (List.mem_reverse.mpr hm)
  rw [hf] at this
  exact Bool.false_ne_true this

theorem goTrimRightChars_append {x y : List Char}
    (h : goTrimRightChars y ≠ []) :
    goTrimRightChars (x ++ y) = x ++ goTrimRightChars y := by
  have hne : (y.reverse.dropWhile isGoSpace).isEmpty = false := by
    cases he : y.reverse.dropWhile isGoSpace with
    | nil => exact absurd (by simp [goTrimRightChars, he]) h
    | cons a l => rfl
  rw [goTrimRightChars, List.reverse_append, List.dropWhile_append, hne]
  simp [goTrimRightChars]

theorem actorFromRequest_bearer (t : String)
    (h : ∃ c ∈ t.data, isGoSpace c = false) :
    actorFromRequest ("Bearer " ++ t) = "api-key" := by
  rw [actorFromRequest, if_pos]
  have hB : goTrimLeftChars ("Bearer " ++ t).data = ("Bearer " ++ t).data := by
    rw [String.data_append,
      show ("Bearer ".data ++ t.data) = 'B' :: ("earer ".data ++ t.data)
        from rfl]
    show List.dropWhile _ _ = _
    rw [List.dropWhile_cons]
    simp [show isGoSpace 'B' = false from by decide]
  rw [goStartsWith, goTrimSpace, goTrimChars, hB, String.data_append,
    goTrimRightChars_append (goTrimRightChars_ne_nil h),
    List.isPrefixOf_iff_prefix]
  exact List.prefix_append _ _

theorem actorFromRequest_cases (h : String) :
    actorFromRequest h = "api-key" ∨ actorFromRequest h = "anonymous" := by
  unfold actorFromRequest
  split_ifs <;> simp

/-! ## The claims -/

/-- C1: for every decision replay input, `DecisionReplayDigest` is the hex
SHA-256 of the newline join of the nine `key=value` lines of the
canonicalized fields in the fixed key order, each score formatted with
exactly six decimal places. -/
theorem replay_digest_matches_spec :
    (∀ inp : DecisionReplayInput,
        DecisionReplayDigest inp = specReplayDigest inp) ∧
      ∀ v : ℚ, decimalsAfterPoint (formatReplayScore v) = 6 := by
  constructor
  · intro inp
    unfold DecisionReplayDigest specReplayDigest
    dsimp only
    have hc : (NormalizeDecisionReplayInput inp).1.cpuScore =
        normalizeReplayScore inp.cpuScore := by
      simp [NormalizeDecisionReplayInput]
    have he : (NormalizeDecisionReplayInput inp).1.entropyScore =
        normalizeReplayScore inp.entropyScore := by
      simp [NormalizeDecisionReplayInput]
    have hf : (NormalizeDecisionReplayInput inp).1.confidenceScore =
        normalizeReplayScore inp.confidenceScore := by
      simp [NormalizeDecisionReplayInput]
    rw [hc, he, hf, formatReplayScore_normalized,
      formatReplayScore_normalized, formatReplayScore_normalized]
  · intro v
    exact decimalsAfterPoint_fmtFixed6 _

/-- C2: the replay digest only depends on the canonicalized input, and
re-digesting an already canonicalized input gives the same digest
(`DecisionReplayDigest ∘ NormalizeDecisionReplayInput = DecisionReplayDigest`);
so any two inputs that canonicalize alike — differing only by surrounding
whitespace, case of `decision`/`rollout_mode`, or sub-6-decimal score noise —
share one digest. -/
theorem replay_digest_canonicalization_invariant :
    (∀ a b : DecisionReplayInput,
        NormalizeDecisionReplayInput a = NormalizeDecisionReplayInput b →
          DecisionReplayDigest a = DecisionReplayDigest b) ∧
      ∀ inp : DecisionReplayInput,
        DecisionReplayDigest (NormalizeDecisionReplayInput inp).1 =
          DecisionReplayDigest inp := by
  constructor
  · intro a b h
    unfold DecisionReplayDigest
    rw [h]
  · intro inp
    unfold DecisionReplayDigest
    rw [NormalizeDecisionReplayInput_idem]

/-- C2 witness: a concrete pair differing only by whitespace, case and
a `10⁻⁷` score perturbation canonicalizes identically, hence digests
identically. -/
theorem replay_digest_canonicalization_invariant_witness :
    NormalizeDecisionReplayInput
        ⟨"e", "v", "c", "Enforce", " kill", "r", 1 / 4, 0, 0⟩ =
      NormalizeDecisionReplayInput
        ⟨" e ", "v", "c", "enforce ", "KILL", "r", 0.25, 0, -0.0000001⟩ ∧
    DecisionReplayDigest ⟨"e", "v", "c", "Enforce", " kill", "r", 1 / 4, 0, 0⟩ =
      DecisionReplayDigest
        ⟨" e ", "v", "c", "enforce ", "KILL", "r", 0.25, 0, -0.0000001⟩ := by
  have hq : NormalizeDecisionReplayInput
      ⟨"e", "v", "c", "Enforce", " kill", "r", 1 / 4, 0, 0⟩ =
      NormalizeDecisionReplayInput
      ⟨" e ", "v", "c", "enforce ", "KILL", "r", 0.25, 0, -0.0000001⟩ := by
    simp only [NormalizeDecisionReplayInput, Prod.mk.injEq,
      DecisionReplayInput.mk.injEq]
    refine ⟨⟨?_, ?_, ?_, ?_, ?_, ?_, ?_, ⟨?_, ?_⟩⟩, ?_⟩
    · trivial
    · trivial
    · trivial
    · trivial
    · trivial
    · trivial
    · rw [show (0.25 : ℚ) = 1 / 4 by norm_num]
    · trivial
    · rw [normalizeReplayScore_eq, normalizeReplayScore_eq]
      norm_num [goRound]
    · trivial
  exact ⟨hq, replay_digest_canonicalization_invariant.1 _ _ hq⟩

/-- C3 counterexample: at score `2.5·10⁻⁶` the code's `math.Round`-based
canonicalization rounds the half up to `3·10⁻⁶` (away from zero), while
round-half-to-even, as the claim states it, would give `2·10⁻⁶`. -/
theorem replay_score_rounding_cx :
    normalizeReplayScore (5 / 2000000) = 3 / 1000000 ∧
    specRoundHalfEven6 (5 / 2000000) = 2 / 1000000 ∧
    normalizeReplayScore (5 / 2000000) ≠ specRoundHalfEven6 (5 / 2000000) := by
  have h1 : normalizeReplayScore (5 / 2000000) = 3 / 1000000 := by
    rw [normalizeReplayScore_eq]
    norm_num [goRound]
  have h2 : specRoundHalfEven6 (5 / 2000000) = 2 / 1000000 := by
    rw [specRoundHalfEven6]
    have hr : roundHalfEven (5 / 2000000 * 1000000) = 2 := by
      rw [roundHalfEven]
      norm_num
    rw [hr]
    norm_num
  refine ⟨h1, h2, ?_⟩
  rw [h1, h2]
  norm_num

/-- C3 amended: every score is rounded to six decimal places with ties going
away from zero (`math.Round`): the result is an integer multiple of `10⁻⁶`
within half an ulp of the input, and at an exact tie the magnitude never
shrinks; the `-0 → 0` collapse is the zero branch of
`normalizeReplayScore`. -/
theorem replay_score_rounding_amended (v : ℚ) :
    (normalizeReplayScore v * 1000000).den = 1 ∧
    |normalizeReplayScore v - v| ≤ 1 / 2000000 ∧
    (|normalizeReplayScore v - v| = 1 / 2000000 →
      |v| ≤ |normalizeReplayScore v|) := by
  rw [normalizeReplayScore_eq]
  have hdist := goRound_dist (v * 1000000)
  have habs : |(goRound (v * 1000000) : ℚ) / 1000000 - v| =
      |(goRound (v * 1000000) : ℚ) - v * 1000000| / 1000000 := by
    rw [show (goRound (v * 1000000) : ℚ) / 1000000 - v =
      ((goRound (v * 1000000) : ℚ) - v * 1000000) / 1000000 by ring, abs_div,
      abs_of_pos (by norm_num : (0 : ℚ) < 1000000)]
  refine ⟨?_, ?_, ?_⟩
  · rw [show (goRound (v * 1000000) : ℚ) / 1000000 * 1000000 =
      (goRound (v * 1000000) : ℚ) by field_simp]
    exact Rat.den_intCast _
  · rw [habs]
    calc |(goRound (v * 1000000) : ℚ) - v * 1000000| / 1000000
        ≤ (1 / 2) / 1000000 := by gcongr
      _ = 1 / 2000000 := by norm_num
  · intro ht
    rw [habs] at ht
    have ht2 : |(goRound (v * 1000000) : ℚ) - v * 1000000| = 1 / 2 := by
      field_simp at ht
      linarith
    have := goRound_tie_away (v * 1000000) ht2
    rw [abs_div, abs_of_pos (by norm_num : (0 : ℚ) < 1000000)]
    rw [show |v| = |v * 1000000| / 1000000 by
      rw [abs_mul]; norm_num]
    gcongr

/-- The status switch's result characterized by its own streak output. -/
theorem signalBaselineStep_status (p : DecisionSignalBaselineState)
    (n i : Bool) (b : ℕ) (r : ℤ) :
    (signalBaselineStep p n i b r).2.1 =
      if i then "insufficient_history"
      else if b = 0 then "healthy"
      else if (signalBaselineStep p n i b r).1 ≥ r then "at_risk"
      else "pending" := by
  unfold signalBaselineStep
  dsimp only
  split_ifs <;> rfl

/-- The drift stats' baseline count is the (amended) spec baseline's size. -/
theorem computeSignalDriftStats_count (latest : DecisionTrace)
    (rest : List DecisionTrace) (thr : decisionSignalBaselineThresholds) :
    (computeSignalDriftStats latest rest thr).baselineSampleCount =
      (specBaselineTraces latest rest).length := by
  unfold computeSignalDriftStats
  dsimp only
  rw [specBaselineTraces_eq]

/-- The drift stats' breach count agrees with the spec-side drifting-signal
count. -/
theorem computeSignalDriftStats_breach (latest : DecisionTrace)
    (rest : List DecisionTrace) (thr : decisionSignalBaselineThresholds) :
    (computeSignalDriftStats latest rest thr).breachSignalCount =
      specBreachSignalCount latest rest thr := by
  unfold computeSignalDriftStats specBreachSignalCount
  dsimp only
  rw [specBaselineTraces_eq, meanSignalScores_eq_spec]
  simp only [decide_eq_true_eq]

/-- C4 counterexample: with `min_baseline_samples = 1`, a bucket holding a
single trace has zero rows besides the latest — fewer than
`min_baseline_samples` — yet the code reports `healthy`, because it uses the
latest trace itself as the baseline of a single-trace bucket. -/
theorem signal_baseline_status_guardrails_cx :
    (buildDecisionSignalBaselineBucket
        ⟨1, "", 0, 40, 40, 40, "threshold-decider", "1.1.0", "enforce"⟩ []
        ⟨25, 20, 20⟩ ⟨1, 2⟩ ⟨true, true, ""⟩ none).status = "healthy" ∧
    (([] : List DecisionTrace).length : ℤ) <
      (clampSignalBaselineGuardrails ⟨1, 2⟩).minBaselineSamples ∧
    "healthy" ≠ "insufficient_history" := by
  refine ⟨?_, by decide, by decide⟩
  norm_num [buildDecisionSignalBaselineBucket, computeSignalDriftStats,
    signalBaselineStep, normalizePreviousRow, meanSignalScores,
    clampSignalBaselineGuardrails,
    show normalizeSignalBaselineStatus "healthy" = "healthy" from by decide]

/-- C4 amended: per bucket evaluation, with the baseline being the traces
besides the latest for a multi-trace bucket but the latest itself for a
single-trace bucket: fewer baseline rows than `min_baseline_samples` →
`insufficient_history`; otherwise zero drifting signals → `healthy`;
otherwise `at_risk` exactly when the computed consecutive-breach streak has
reached `required_consecutive_breaches`, else `pending`. -/
theorem signal_baseline_status_guardrails (latest : DecisionTrace)
    (rest : List DecisionTrace) (thr : decisionSignalBaselineThresholds)
    (graw : decisionSignalBaselineGuardrails)
    (opts : decisionSignalBaselineBuildOptions)
    (prevRow : Option DecisionSignalBaselineState) :
    (buildDecisionSignalBaselineBucket latest rest thr graw opts
        prevRow).status =
      (if (buildDecisionSignalBaselineBucket latest rest thr graw opts
          prevRow).insufficientHistory then "insufficient_history"
       else if (buildDecisionSignalBaselineBucket latest rest thr graw opts
          prevRow).breachSignalCount = 0 then "healthy"
       else if (buildDecisionSignalBaselineBucket latest rest thr graw opts
            prevRow).consecutiveBreachCount ≥
            (clampSignalBaselineGuardrails graw).requiredStreak then "at_risk"
       else "pending") ∧
    (buildDecisionSignalBaselineBucket latest rest thr graw opts
        prevRow).insufficientHistory =
      decide (((specBaselineTraces latest rest).length : ℤ) <
        (clampSignalBaselineGuardrails graw).minBaselineSamples) ∧
    (buildDecisionSignalBaselineBucket latest rest thr graw opts
        prevRow).breachSignalCount = specBreachSignalCount latest rest thr := by
  refine ⟨?_, ?_, ?_⟩
  · exact signalBaselineStep_status (normalizePreviousRow latest prevRow)
      (!prevRow.isSome ||
        decide (latest.id ≠ (normalizePreviousRow latest prevRow).latestTraceID))
      (decide (((computeSignalDriftStats latest rest thr).baselineSampleCount :
        ℤ) < (clampSignalBaselineGuardrails graw).minBaselineSamples))
      (computeSignalDriftStats latest rest thr).breachSignalCount
      (clampSignalBaselineGuardrails graw).requiredStreak
  · rw [show (buildDecisionSignalBaselineBucket latest rest thr graw opts
        prevRow).insufficientHistory =
        decide (((computeSignalDriftStats latest rest
          thr).baselineSampleCount : ℤ) <
          (clampSignalBaselineGuardrails graw).minBaselineSamples) from rfl,
      computeSignalDriftStats_count]
  · rw [show (buildDecisionSignalBaselineBucket latest rest thr graw opts
        prevRow).breachSignalCount =
        (computeSignalDriftStats latest rest thr).breachSignalCount from rfl,
      computeSignalDriftStats_breach]

/-- With a stale latest trace the status switch leaves the streak at `0`,
keeps a positive previous streak, or clamps a non-positive one to `1`. -/
theorem signalBaselineStep_stale (p : DecisionSignalBaselineState) (i : Bool)
    (b : ℕ) (r : ℤ) :
    (signalBaselineStep p false i b r).1 = 0 ∨
    (signalBaselineStep p false i b r).1 = 1 ∨
    ((signalBaselineStep p false i b r).1 = p.consecutiveBreach ∧
      0 < p.consecutiveBreach) := by
  unfold signalBaselineStep
  dsimp only
  split_ifs with h1 h2 h3 h3 <;> simp_all

/-- C5 counterexample: re-evaluating a bucket whose latest trace ID equals
the persisted `latest_trace_id` does change the persisted streak when the
drift classification changed between evaluations: a previously `healthy` row
with streak 0 is re-persisted with streak 1 (clamped up) for the same latest
trace, so the same-latest re-evaluation is not a no-op. -/
theorem signal_baseline_same_latest_cx :
    (buildDecisionSignalBaselineBucket
        ⟨7, "", 0, 95, 40, 40, "e", "v", "enforce"⟩
        [⟨3, "", 0, 40, 40, 40, "e", "v", "enforce"⟩,
         ⟨4, "", 0, 40, 40, 40, "e", "v", "enforce"⟩,
         ⟨5, "", 0, 40, 40, 40, "e", "v", "enforce"⟩]
        ⟨25, 20, 20⟩ ⟨3, 2⟩ ⟨true, true, ""⟩
        (some ⟨"e@v|enforce", 7, 0, "healthy"⟩)).persist =
      some ⟨"e@v|enforce", 7, 1, "pending"⟩ ∧
    (1 : ℤ) ≠ 0 := by
  refine ⟨?_, by decide⟩
  norm_num [buildDecisionSignalBaselineBucket, computeSignalDriftStats,
    signalBaselineStep, normalizePreviousRow, meanSignalScores,
    clampSignalBaselineGuardrails,
    show normalizeSignalBaselineStatus "healthy" = "healthy" from by decide,
    show decisionSignalBucketKey ⟨7, "", 0, 95, 40, 40, "e", "v", "enforce"⟩ =
      "e@v|enforce" from by decide]

/-- C5 amended: re-evaluating a bucket whose latest trace ID equals the
previously persisted (non-negative) `latest_trace_id` never increments a
positive streak: the resulting streak — which is what any persisted row
carries — is `0`, `1`, or the unchanged positive previous streak, so it
exceeds the previous streak only by the `0 → 1` clamp applied when a breach
is observed against a stored streak of zero; only a new `latest_trace_id`
can increment a positive streak. -/
theorem signal_baseline_same_latest_streak (latest : DecisionTrace)
    (rest : List DecisionTrace) (thr : decisionSignalBaselineThresholds)
    (graw : decisionSignalBaselineGuardrails)
    (opts : decisionSignalBaselineBuildOptions)
    (p : DecisionSignalBaselineState) (hid : p.latestTraceID = latest.id)
    (hnn : 0 ≤ p.latestTraceID) :
    ((buildDecisionSignalBaselineBucket latest rest thr graw opts
        (some p)).consecutiveBreachCount = 0 ∨
     (buildDecisionSignalBaselineBucket latest rest thr graw opts
        (some p)).consecutiveBreachCount = 1 ∨
     (buildDecisionSignalBaselineBucket latest rest thr graw opts
        (some p)).consecutiveBreachCount = p.consecutiveBreach) ∧
    (buildDecisionSignalBaselineBucket latest rest thr graw opts
        (some p)).consecutiveBreachCount ≤ max p.consecutiveBreach 1 ∧
    ((buildDecisionSignalBaselineBucket latest rest thr graw opts
        (some p)).consecutiveBreachCount > p.consecutiveBreach →
      p.consecutiveBreach ≤ 0 ∧
      (buildDecisionSignalBaselineBucket latest rest thr graw opts
        (some p)).consecutiveBreachCount ≤ 1) ∧
    (∀ row : DecisionSignalBaselineState,
      (buildDecisionSignalBaselineBucket latest rest thr graw opts
        (some p)).persist = some row →
      row.consecutiveBreach =
        (buildDecisionSignalBaselineBucket latest rest thr graw opts
          (some p)).consecutiveBreachCount) := by
  have hpid : (normalizePreviousRow latest (some p)).latestTraceID =
      p.latestTraceID := by
    unfold normalizePreviousRow
    dsimp only [Option.getD]
    rw [if_neg (not_lt.mpr hnn)]
  have hnew : (!(some p : Option DecisionSignalBaselineState).isSome ||
      decide (latest.id ≠
        (normalizePreviousRow latest (some p)).latestTraceID)) = false := by
    rw [hpid, hid]
    simp
  have hpc : (normalizePreviousRow latest (some p)).consecutiveBreach =
      max p.consecutiveBreach 0 := by
    unfold normalizePreviousRow
    dsimp only [Option.getD]
    split_ifs with h
    · exact (max_eq_right h.le).symm
    · exact (max_eq_left (not_lt.mp h)).symm
  have hr : (buildDecisionSignalBaselineBucket latest rest thr graw opts
      (some p)).consecutiveBreachCount =
      (signalBaselineStep (normalizePreviousRow latest (some p)) false
        (decide (((computeSignalDriftStats latest rest
          thr).baselineSampleCount : ℤ) <
          (clampSignalBaselineGuardrails graw).minBaselineSamples))
        (computeSignalDriftStats latest rest thr).breachSignalCount
        (clampSignalBaselineGuardrails graw).requiredStreak).1 := by
    rw [show (buildDecisionSignalBaselineBucket latest rest thr graw opts
        (some p)).consecutiveBreachCount =
      (signalBaselineStep (normalizePreviousRow latest (some p))
        (!(some p : Option DecisionSignalBaselineState).isSome ||
          decide (latest.id ≠
            (normalizePreviousRow latest (some p)).latestTraceID))
        (decide (((computeSignalDriftStats latest rest
          thr).baselineSampleCount : ℤ) <
          (clampSignalBaselineGuardrails graw).minBaselineSamples))
        (computeSignalDriftStats latest rest thr).breachSignalCount
        (clampSignalBaselineGuardrails graw).requiredStreak).1 from rfl, hnew]
  have hs := signalBaselineStep_stale (normalizePreviousRow latest (some p))
    (decide (((computeSignalDriftStats latest rest
      thr).baselineSampleCount : ℤ) <
      (clampSignalBaselineGuardrails graw).minBaselineSamples))
    (computeSignalDriftStats latest rest thr).breachSignalCount
    (clampSignalBaselineGuardrails graw).requiredStreak
  rw [hpc] at hs
  rw [hr]
  set s := (signalBaselineStep (normalizePreviousRow latest (some p)) false
    (decide (((computeSignalDriftStats latest rest
      thr).baselineSampleCount : ℤ) <
      (clampSignalBaselineGuardrails graw).minBaselineSamples))
    (computeSignalDriftStats latest rest thr).breachSignalCount
    (clampSignalBaselineGuardrails graw).requiredStreak).1 with hsdef
  have hclean : s = 0 ∨ s = 1 ∨
      (s = p.consecutiveBreach ∧ 0 < p.consecutiveBreach) := by
    rcases hs with h | h | ⟨h1, h2⟩
    · exact Or.inl h
    · exact Or.inr (Or.inl h)
    · rcases max_choice p.consecutiveBreach (0 : ℤ) with hm | hm
      · rw [hm] at h1 h2
        exact Or.inr (Or.inr ⟨h1, h2⟩)
      · rw [hm] at h1 h2
        omega
  refine ⟨?_, ?_, ?_, ?_⟩
  · rcases hclean with h | h | ⟨h1, h2⟩
    · exact Or.inl h
    · exact Or.inr (Or.inl h)
    · exact Or.inr (Or.inr h1)
  · rcases max_choice p.consecutiveBreach (1 : ℤ) with hM | hM
    · have hx : (1 : ℤ) ≤ p.consecutiveBreach := by
        rw [← hM]
        exact le_max_right _ _
      rw [hM]
      rcases hclean with h | h | ⟨h1, h2⟩ <;> omega
    · have hx : p.consecutiveBreach ≤ 1 := by
        rw [← hM]
        exact le_max_left _ _
      rw [hM]
      rcases hclean with h | h | ⟨h1, h2⟩ <;> omega
  · intro hgt
    rcases hclean with h | h | ⟨h1, h2⟩ <;>
      exact ⟨by omega, by omega⟩
  · intro row hrow
    revert hrow
    rw [show (buildDecisionSignalBaselineBucket latest rest thr graw opts
        (some p)).persist =
      (if opts.persistState ∧
          (¬(some p : Option DecisionSignalBaselineState).isSome ∨
            (normalizePreviousRow latest (some p)).latestTraceID ≠
              latest.id ∨
            (normalizePreviousRow latest (some p)).consecutiveBreach ≠
              (buildDecisionSignalBaselineBucket latest rest thr graw opts
                (some p)).consecutiveBreachCount ∨
            (normalizePreviousRow latest (some p)).status ≠
              (buildDecisionSignalBaselineBucket latest rest thr graw opts
                (some p)).status) then
        some { bucketKey := decisionSignalBucketKey latest,
               latestTraceID := latest.id,
               consecutiveBreach :=
                 (buildDecisionSignalBaselineBucket latest rest thr graw
                   opts (some p)).consecutiveBreachCount,
               status := (buildDecisionSignalBaselineBucket latest rest thr
                 graw opts (some p)).status }
      else none) from rfl]
    split_ifs
    · intro hrow
      cases hrow
      exact hr
    · intro hrow
      cases hrow

/-- The status switch only ever produces the four statuses. -/
theorem signalBaselineStep_status_mem (p : DecisionSignalBaselineState)
    (n i : Bool) (b : ℕ) (r : ℤ) :
    (signalBaselineStep p n i b r).2.1 = "insufficient_history" ∨
    (signalBaselineStep p n i b r).2.1 = "healthy" ∨
    (signalBaselineStep p n i b r).2.1 = "at_risk" ∨
    (signalBaselineStep p n i b r).2.1 = "pending" := by
  unfold signalBaselineStep
  dsimp only
  split_ifs <;> simp

/-- Normalization fixes every status the switch produces. -/
theorem normalize_signalBaselineStep_status (p : DecisionSignalBaselineState)
    (n i : Bool) (b : ℕ) (r : ℤ) :
    normalizeSignalBaselineStatus (signalBaselineStep p n i b r).2.1 =
      (signalBaselineStep p n i b r).2.1 := by
  rcases signalBaselineStep_status_mem p n i b r with h | h | h | h <;>
    rw [h] <;> decide

/-- C6 counterexample: the Prometheus metrics evaluation path
(`decisionSignalBaselinePrometheus`, options `PersistState: true,
EmitAuditTransitions: false`) persists a `pending → at_risk` transition
without appending any audit event. -/
theorem signal_baseline_transition_audit_cx :
    (buildDecisionSignalBaselineBucket
        ⟨7, "", 0, 95, 40, 40, "e", "v", "enforce"⟩
        [⟨3, "", 0, 40, 40, 40, "e", "v", "enforce"⟩,
         ⟨4, "", 0, 40, 40, 40, "e", "v", "enforce"⟩,
         ⟨5, "", 0, 40, 40, 40, "e", "v", "enforce"⟩]
        ⟨25, 20, 20⟩ ⟨3, 2⟩ ⟨true, false, ""⟩
        (some ⟨"e@v|enforce", 3, 1, "pending"⟩)).persist =
      some ⟨"e@v|enforce", 7, 2, "at_risk"⟩ ∧
    normalizeSignalBaselineStatus "pending" = "pending" ∧
    (buildDecisionSignalBaselineBucket
        ⟨7, "", 0, 95, 40, 40, "e", "v", "enforce"⟩
        [⟨3, "", 0, 40, 40, 40, "e", "v", "enforce"⟩,
         ⟨4, "", 0, 40, 40, 40, "e", "v", "enforce"⟩,
         ⟨5, "", 0, 40, 40, 40, "e", "v", "enforce"⟩]
        ⟨25, 20, 20⟩ ⟨3, 2⟩ ⟨true, false, ""⟩
        (some ⟨"e@v|enforce", 3, 1, "pending"⟩)).event = none := by
  refine ⟨?_, by decide, ?_⟩ <;>
    norm_num [buildDecisionSignalBaselineBucket, computeSignalDriftStats,
      signalBaselineStep, normalizePreviousRow, meanSignalScores,
      clampSignalBaselineGuardrails,
      show normalizeSignalBaselineStatus "pending" = "pending" from by decide,
      show decisionSignalBucketKey ⟨7, "", 0, 95, 40, 40, "e", "v",
        "enforce"⟩ = "e@v|enforce" from by decide]

/-- C6 amended: on evaluation paths that persist state AND have audit
emission enabled (the signal-baseline HTTP endpoint; not the Prometheus
path), every transition into or out of `at_risk` appends the audit event,
titled `SIGNAL_BASELINE_AT_RISK` going in and `SIGNAL_BASELINE_RECOVERED`
going out, carrying the signal deltas, the thresholds and the originating
request ID. -/
theorem signal_baseline_transition_audit (latest : DecisionTrace)
    (rest : List DecisionTrace) (thr : decisionSignalBaselineThresholds)
    (graw : decisionSignalBaselineGuardrails)
    (opts : decisionSignalBaselineBuildOptions)
    (p : DecisionSignalBaselineState) (hpersist : opts.persistState = true)
    (hemit : opts.emitAuditTransitions = true)
    (hchange : (normalizePreviousRow latest (some p)).status ≠
      (buildDecisionSignalBaselineBucket latest rest thr graw opts
        (some p)).status)
    (hrisk : (normalizePreviousRow latest (some p)).status = "at_risk" ∨
      (buildDecisionSignalBaselineBucket latest rest thr graw opts
        (some p)).status = "at_risk") :
    ∃ ev : SignalBaselineTransitionEvent,
      (buildDecisionSignalBaselineBucket latest rest thr graw opts
        (some p)).event = some ev ∧
      ev.title = (if (buildDecisionSignalBaselineBucket latest rest thr graw
          opts (some p)).status = "at_risk" then "SIGNAL_BASELINE_AT_RISK"
        else "SIGNAL_BASELINE_RECOVERED") ∧
      ev.requestID = goTrimSpace opts.requestID ∧
      ev.previousStatus = (normalizePreviousRow latest (some p)).status ∧
      ev.status = (buildDecisionSignalBaselineBucket latest rest thr graw
        opts (some p)).status ∧
      ev.cpuDelta = (buildDecisionSignalBaselineBucket latest rest thr graw
        opts (some p)).cpuDelta ∧
      ev.entropyDelta = (buildDecisionSignalBaselineBucket latest rest thr
        graw opts (some p)).entropyDelta ∧
      ev.confidenceDelta = (buildDecisionSignalBaselineBucket latest rest thr
        graw opts (some p)).confidenceDelta ∧
      ev.cpuDeltaThreshold = thr.cpuDelta ∧
      ev.entropyDeltaThreshold = thr.entropyDelta ∧
      ev.confidenceDeltaThreshold = thr.confidenceDelta := by
  have hprevfix : normalizeSignalBaselineStatus
      (normalizePreviousRow latest (some p)).status =
      (normalizePreviousRow latest (some p)).status := by
    rw [show (normalizePreviousRow latest (some p)).status =
      normalizeSignalBaselineStatus p.status from rfl]
    exact normalizeSignalBaselineStatus_idem p.status
  have hstatfix : normalizeSignalBaselineStatus
      (buildDecisionSignalBaselineBucket latest rest thr graw opts
        (some p)).status =
      (buildDecisionSignalBaselineBucket latest rest thr graw opts
        (some p)).status :=
    normalize_signalBaselineStep_status _ _ _ _ _
  have hse : (buildDecisionSignalBaselineBucket latest rest thr graw opts
      (some p)).event =
      emitSignalBaselineTransitionEvent (goTrimSpace opts.requestID)
        (decisionSignalBucketKey latest)
        (normalizePreviousRow latest (some p)).status
        (buildDecisionSignalBaselineBucket latest rest thr graw opts
          (some p)).status
        (clampSignalBaselineGuardrails graw) thr latest
        (buildDecisionSignalBaselineBucket latest rest thr graw opts
          (some p)).breachSignalCount
        (buildDecisionSignalBaselineBucket latest rest thr graw opts
          (some p)).consecutiveBreachCount
        (buildDecisionSignalBaselineBucket latest rest thr graw opts
          (some p)).cpuDelta
        (buildDecisionSignalBaselineBucket latest rest thr graw opts
          (some p)).entropyDelta
        (buildDecisionSignalBaselineBucket latest rest thr graw opts
          (some p)).confidenceDelta := by
    rw [show (buildDecisionSignalBaselineBucket latest rest thr graw opts
        (some p)).event =
      (if opts.persistState ∧ opts.emitAuditTransitions ∧
          (some p : Option DecisionSignalBaselineState).isSome ∧
          (normalizePreviousRow latest (some p)).status ≠
            (buildDecisionSignalBaselineBucket latest rest thr graw opts
              (some p)).status then
        emitSignalBaselineTransitionEvent (goTrimSpace opts.requestID)
          (decisionSignalBucketKey latest)
          (normalizePreviousRow latest (some p)).status
          (buildDecisionSignalBaselineBucket latest rest thr graw opts
            (some p)).status
          (clampSignalBaselineGuardrails graw) thr latest
          (buildDecisionSignalBaselineBucket latest rest thr graw opts
            (some p)).breachSignalCount
          (buildDecisionSignalBaselineBucket latest rest thr graw opts
            (some p)).consecutiveBreachCount
          (buildDecisionSignalBaselineBucket latest rest thr graw opts
            (some p)).cpuDelta
          (buildDecisionSignalBaselineBucket latest rest thr graw opts
            (some p)).entropyDelta
          (buildDecisionSignalBaselineBucket latest rest thr graw opts
            (some p)).confidenceDelta
      else none) from rfl,
      if_pos ⟨hpersist, hemit, rfl, hchange⟩]
  rw [hse]
  unfold emitSignalBaselineTransitionEvent
  dsimp only
  rw [hprevfix, hstatfix, if_neg (fun hcon => hcon hrisk)]
  exact ⟨_, rfl, rfl, rfl, rfl, rfl, rfl, rfl, rfl, rfl, rfl, rfl⟩

/-- C3 amended witness: the tie case realized at `2.5·10⁻⁶`. -/
theorem replay_score_rounding_amended_witness :
    |normalizeReplayScore (5 / 2000000) - 5 / 2000000| = 1 / 2000000 ∧
    |(5 / 2000000 : ℚ)| ≤ |normalizeReplayScore (5 / 2000000)| := by
  have ht : |normalizeReplayScore (5 / 2000000) - 5 / 2000000| =
      1 / 2000000 := by
    rw [normalizeReplayScore_eq]
    norm_num [goRound]
  exact ⟨ht, (replay_score_rounding_amended (5 / 2000000)).2.2 ht⟩

/-- C7 counterexample: a `DELETE` of the mutating kill route is rejected
with `405 Method not allowed` by the handler's method dispatch before the
auth check runs, not with the stable 403 forbidden response the claim
demands for every unsafe method on a mutating route. -/
theorem auth_unset_forbidden_cx :
    HandleProcessKillGate "" "DELETE" "" (freshLimiterEntry 0) 0 =
      (.responded ⟨405, "Method not allowed"⟩, freshLimiterEntry 0) ∧
    problemTypeURI 405 "Method not allowed" =
      problemTypeBaseURI ++ "method-not-allowed" ∧
    problemTypeURI 405 "Method not allowed" ≠
      problemTypeBaseURI ++ "forbidden" :=
  ⟨by decide, by decide, by decide⟩

/-- C7 amended: with `FLOWFORGE_API_KEY` unset, every request that reaches
the auth check with an unsafe method — in particular `POST /process/kill` —
receives the single stable 403 forbidden problem response, independent of
headers and limiter state; safe methods always pass the auth check; but a
`DELETE` of the kill route is rejected `405` by method dispatch before auth. -/
theorem auth_unset_forbidden (m1 m2 hdr : String) (e : limiterEntry) (now : ℤ)
    (h1 : isUnsafeMethod m1 = true)
    (h2 : m2 = "GET" ∨ m2 = "HEAD" ∨ m2 = "OPTIONS") :
    requireAuth "" m1 hdr e now =
      (some ⟨403, "Security Alert: You must set FLOWFORGE_API_KEY environment variable to perform mutations."⟩, e) ∧
    problemTypeURI 403 "Security Alert: You must set FLOWFORGE_API_KEY environment variable to perform mutations." =
      problemTypeBaseURI ++ "forbidden" ∧
    requireAuth "" m2 hdr e now = (none, e) ∧
    HandleProcessKillGate "" "POST" hdr e now =
      (.responded ⟨403, "Security Alert: You must set FLOWFORGE_API_KEY environment variable to perform mutations."⟩, e) ∧
    HandleProcessKillGate "" "DELETE" hdr e now =
      (.responded ⟨405, "Method not allowed"⟩, e) := by
  have hsafe : isUnsafeMethod m2 = false := by
    rcases h2 with h | h | h <;> subst h <;> decide
  refine ⟨?_, by decide, ?_, ?_, ?_⟩
  · simp [requireAuth, h1]
  · simp [requireAuth, hsafe]
  · simp [HandleProcessKillGate, requireAuth,
      show isUnsafeMethod "POST" = true from by decide]
  · simp [HandleProcessKillGate]

/-- C7 witness: the amended claim realized at `DELETE`/`GET` with an empty
header and a fresh limiter entry. -/
theorem auth_unset_forbidden_witness :
    requireAuth "" "DELETE" "" (freshLimiterEntry 0) 0 =
      (some ⟨403, "Security Alert: You must set FLOWFORGE_API_KEY environment variable to perform mutations."⟩, freshLimiterEntry 0) ∧
    requireAuth "" "GET" "" (freshLimiterEntry 0) 0 =
      (none, freshLimiterEntry 0) ∧
    HandleProcessKillGate "" "POST" "" (freshLimiterEntry 0) 0 =
      (.responded ⟨403, "Security Alert: You must set FLOWFORGE_API_KEY environment variable to perform mutations."⟩, freshLimiterEntry 0) := by
  have h := auth_unset_forbidden "DELETE" "GET" "" (freshLimiterEntry 0) 0
    (by decide) (Or.inl rfl)
  exact ⟨h.1, h.2.2.1, h.2.2.2.1⟩

/-- C8 counterexample: in the full pipeline the 12th wrong-bearer request
from one IP is refused by the middleware block installed at the 10th
failure, so its 429 carries the generic rate-limited problem type, not the
auth-rate-limited one. -/
theorem auth_rate_limit_cx :
    (runWrongBearer "k" "wrong-key" 0 12).getD 11 ⟨0, ""⟩ =
      ⟨429, "rate limit exceeded"⟩ ∧
    problemTypeURI 429 "rate limit exceeded" =
      problemTypeBaseURI ++ "rate-limited" ∧
    problemTypeURI 429 "rate limit exceeded" ≠
      problemTypeBaseURI ++ "auth-rate-limited" :=
  ⟨by decide, by decide, by decide⟩

/-- C8 amended: with the key set, a wrong bearer repeated from one IP gets
403 forbidden on requests 1–9, 429 auth-rate-limited on the 10th (the
auth-failure limit of 10 installs the 10-minute block), and 429 with the
generic rate-limited type — produced by the middleware block, independent of
the request payload — on the 11th and 12th. -/
theorem auth_rate_limit_schedule (key tok : String) (h1 : key ≠ "")
    (h2 : goTrimSpace tok ≠ key) :
    runWrongBearer key tok 0 12 =
      List.replicate 9 ⟨403, "Invalid API key"⟩ ++
        [⟨429, "Too many failed auth attempts. Retry later."⟩,
         ⟨429, "rate limit exceeded"⟩, ⟨429, "rate limit exceeded"⟩] ∧
    problemTypeURI 403 "Invalid API key" = problemTypeBaseURI ++ "forbidden" ∧
    problemTypeURI 429 "Too many failed auth attempts. Retry later." =
      problemTypeBaseURI ++ "auth-rate-limited" ∧
    problemTypeURI 429 "rate limit exceeded" =
      problemTypeBaseURI ++ "rate-limited" := by
  refine ⟨?_, by decide, by decide, by decide⟩
  simp [runWrongBearer, runSteps, securityThenAuth, rateLimiterAllow,
    rateLimiterAddAuthFailure, rateLimiterClearAuthFailures, rlWindowReset,
    requireAuth, freshLimiterEntry, minuteNanos, blockDurationNanos, h1, h2,
    goStartsWith_append, goDropStart_append]

/-- C8 amended witness: the schedule realized at a concrete key and token. -/
theorem auth_rate_limit_schedule_witness :
    runWrongBearer "k" "wrong-key" 0 12 =
      List.replicate 9 ⟨403, "Invalid API key"⟩ ++
        [⟨429, "Too many failed auth attempts. Retry later."⟩,
         ⟨429, "rate limit exceeded"⟩, ⟨429, "rate limit exceeded"⟩] :=
  (auth_rate_limit_schedule "k" "wrong-key" (by decide) (by decide)).1

/-- C9: `GetState` returns a Go struct copy whose `Args` slice header still
references the store's backing array, so writing through the snapshot's
`Args` mutates the stored process state — the read is not a deep copy, which
the spec (and the repository's own architecture audit) requires. Evaluated
at the failing input: stored args `["--token", "abc"]`, snapshot write
`Args[0] = "MUTATED"`. -/
theorem state_snapshot_args_aliased :
    (UpdateState ⟨[], ⟨0, "STOPPED", 0, 0⟩⟩ 0 "RUNNING" 42
        ["--token", "abc"]).current.argsRef =
      (GetState (UpdateState ⟨[], ⟨0, "STOPPED", 0, 0⟩⟩ 0 "RUNNING" 42
        ["--token", "abc"])).argsRef ∧
    sliceRead (UpdateState ⟨[], ⟨0, "STOPPED", 0, 0⟩⟩ 0 "RUNNING" 42
        ["--token", "abc"])
      (UpdateState ⟨[], ⟨0, "STOPPED", 0, 0⟩⟩ 0 "RUNNING" 42
        ["--token", "abc"]).current.argsRef = ["--token", "abc"] ∧
    sliceRead
      (sliceWrite (UpdateState ⟨[], ⟨0, "STOPPED", 0, 0⟩⟩ 0 "RUNNING" 42
        ["--token", "abc"])
        (GetState (UpdateState ⟨[], ⟨0, "STOPPED", 0, 0⟩⟩ 0 "RUNNING" 42
          ["--token", "abc"])).argsRef 0 "MUTATED")
      (sliceWrite (UpdateState ⟨[], ⟨0, "STOPPED", 0, 0⟩⟩ 0 "RUNNING" 42
        ["--token", "abc"])
        (GetState (UpdateState ⟨[], ⟨0, "STOPPED", 0, 0⟩⟩ 0 "RUNNING" 42
          ["--token", "abc"])).argsRef 0 "MUTATED").current.argsRef =
      ["MUTATED", "abc"] ∧
    (["MUTATED", "abc"] : List String) ≠ ["--token", "abc"] :=
  ⟨by decide, by decide, by decide, by decide⟩

/-- C10 counterexample: two kill requests identical except for the bearer
token — `"abc"` versus the empty token — are attributed to different
actors: the empty-token header `"Bearer "` trims to `"Bearer"`, loses the
prefix, and is recorded as `anonymous`, not `api-key`. -/
theorem audit_actor_constant_cx :
    actorFromRequest ("Bearer " ++ "abc") = "api-key" ∧
    actorFromRequest ("Bearer " ++ "") = "anonymous" ∧
    ("api-key" : String) ≠ "anonymous" :=
  ⟨by decide, by decide, by decide⟩

/-- C10 amended: any two requests whose bearer tokens each contain a
non-whitespace character are attributed to the same constant `api-key`; an
empty or all-whitespace token (like a header without the Bearer prefix) is
recorded as `anonymous`; in every case the actor is one of the two
constants, so no token material flows into persisted audit events. -/
theorem audit_actor_constant (t1 t2 h : String)
    (h1 : ∃ c ∈ t1.data, isGoSpace c = false)
    (h2 : ∃ c ∈ t2.data, isGoSpace c = false) :
    actorFromRequest ("Bearer " ++ t1) = "api-key" ∧
    actorFromRequest ("Bearer " ++ t2) = "api-key" ∧
    actorFromRequest ("Bearer " ++ t1) = actorFromRequest ("Bearer " ++ t2) ∧
    (actorFromRequest h = "api-key" ∨ actorFromRequest h = "anonymous") := by
  have ha := actorFromRequest_bearer t1 h1
  have hb := actorFromRequest_bearer t2 h2
  exact ⟨ha, hb, ha.trans hb.symm, actorFromRequest_cases h⟩

/-- C10 amended witness: concrete tokens `"abc"` and `"x y"`, plus an
arbitrary non-bearer header. -/
theorem audit_actor_constant_witness :
    actorFromRequest ("Bearer " ++ "abc") = "api-key" ∧
    actorFromRequest ("Bearer " ++ "x y") = "api-key" ∧
    (actorFromRequest "basic zzz" = "api-key" ∨
      actorFromRequest "basic zzz" = "anonymous") := by
  have h := audit_actor_constant "abc" "x y" "basic zzz"
    ⟨'a', by decide, by decide⟩ ⟨'x', by decide, by decide⟩
  exact ⟨h.1, h.2.1, h.2.2.2⟩

/-- C5 amended witness: a same-latest re-evaluation with stored streak 2
stays within `max 2 1`. -/
theorem signal_baseline_same_latest_streak_witness :
    (buildDecisionSignalBaselineBucket
        ⟨7, "", 0, 95, 40, 40, "e", "v", "enforce"⟩
        [⟨3, "", 0, 40, 40, 40, "e", "v", "enforce"⟩,
         ⟨4, "", 0, 40, 40, 40, "e", "v", "enforce"⟩,
         ⟨5, "", 0, 40, 40, 40, "e", "v", "enforce"⟩]
        ⟨25, 20, 20⟩ ⟨3, 2⟩ ⟨true, true, ""⟩
        (some ⟨"e@v|enforce", 7, 2, "pending"⟩)).consecutiveBreachCount ≤
      max (2 : ℤ) 1 := by
  have h := signal_baseline_same_latest_streak
    ⟨7, "", 0, 95, 40, 40, "e", "v", "enforce"⟩
    [⟨3, "", 0, 40, 40, 40, "e", "v", "enforce"⟩,
     ⟨4, "", 0, 40, 40, 40, "e", "v", "enforce"⟩,
     ⟨5, "", 0, 40, 40, 40, "e", "v", "enforce"⟩]
    ⟨25, 20, 20⟩ ⟨3, 2⟩ ⟨true, true, ""⟩ ⟨"e@v|enforce", 7, 2, "pending"⟩
    rfl (by decide)
  exact h.2.1

/-- C6 amended witness: the audit-enabled endpoint options on a
`pending → at_risk` transition produce the event, carrying the trimmed
request ID. -/
theorem signal_baseline_transition_audit_witness :
    ∃ ev : SignalBaselineTransitionEvent,
      (buildDecisionSignalBaselineBucket
          ⟨7, "", 0, 95, 40, 40, "e", "v", "enforce"⟩
          [⟨3, "", 0, 40, 40, 40, "e", "v", "enforce"⟩,
           ⟨4, "", 0, 40, 40, 40, "e", "v", "enforce"⟩,
           ⟨5, "", 0, 40, 40, 40, "e", "v", "enforce"⟩]
          ⟨25, 20, 20⟩ ⟨3, 2⟩ ⟨true, true, " req-1 "⟩
          (some ⟨"e@v|enforce", 3, 1, "pending"⟩)).event = some ev ∧
      ev.requestID = goTrimSpace " req-1 " := by
  have hb : (buildDecisionSignalBaselineBucket
      ⟨7, "", 0, 95, 40, 40, "e", "v", "enforce"⟩
      [⟨3, "", 0, 40, 40, 40, "e", "v", "enforce"⟩,
       ⟨4, "", 0, 40, 40, 40, "e", "v", "enforce"⟩,
       ⟨5, "", 0, 40, 40, 40, "e", "v", "enforce"⟩]
      ⟨25, 20, 20⟩ ⟨3, 2⟩ ⟨true, true, " req-1 "⟩
      (some ⟨"e@v|enforce", 3, 1, "pending"⟩)).status = "at_risk" := by
    norm_num [buildDecisionSignalBaselineBucket, computeSignalDriftStats,
      signalBaselineStep, normalizePreviousRow, meanSignalScores,
      clampSignalBaselineGuardrails,
      show normalizeSignalBaselineStatus "pending" = "pending" from by decide]
  have hp : (normalizePreviousRow
      ⟨7, "", 0, 95, 40, 40, "e", "v", "enforce"⟩
      (some ⟨"e@v|enforce", 3, 1, "pending"⟩)).status = "pending" := by decide
  have h := signal_baseline_transition_audit
    ⟨7, "", 0, 95, 40, 40, "e", "v", "enforce"⟩
    [⟨3, "", 0, 40, 40, 40, "e", "v", "enforce"⟩,
     ⟨4, "", 0, 40, 40, 40, "e", "v", "enforce"⟩,
     ⟨5, "", 0, 40, 40, 40, "e", "v", "enforce"⟩]
    ⟨25, 20, 20⟩ ⟨3, 2⟩ ⟨true, true, " req-1 "⟩
    ⟨"e@v|enforce", 3, 1, "pending"⟩ rfl rfl
    (by rw [hp, hb]; decide) (Or.inr hb)
  obtain ⟨ev, he, _, hreq, _⟩ := h
  exact ⟨ev, he, hreq⟩

end FlowForge
